import Mathlib

/-!
Verification of the upgrade-planner recommendation engine.

This file shallowly embeds the recommendation engine of the
console-plugin-upgrade-planner repository: the semantic-version comparator
(the subset of the npm semver library the engine calls), the issue detector
and health computation of the lifecycle service, the four upgrade-path
generation strategies, the duration estimator and the maintenance-window
scheduler of the upgrade-planner service.

Modelling conventions:
- JavaScript numbers holding integers are Nat or Int; Date values are Nat
  millisecond timestamps, and the wall clock is passed explicitly as a
  `now : Nat` parameter wherever the source calls Date.now or new Date.
- npm semver functions that throw a TypeError on an unparsable version
  (gt, lt, diff) are embedded in Except String; functions that return null
  instead of throwing (parse, valid) are embedded with Option and Bool.
  Code that can observe such a throw is Except-valued.
- JavaScript truthiness tests on numbers and strings are spelled out
  (0 and the empty string are falsy).
- The push-loops of the source that build step lists are realized as structural
  recursions producing the same list in the same order, and the mutable
  order counter (starting at 1, incremented once per pushed step) is
  realized by numbering the finished list from 1.
-/

/-! ## Data model (shared/types.ts) -/

inductive IssueSeverity where
  | critical
  | warning
  | info
deriving Repr, DecidableEq, Inhabited

inductive IssueType where
  | versionCeiling
  | staleChannel
  | outdatedVersion
  | lifecycleExpiring
  | incompatibleCluster
deriving Repr, DecidableEq, Inhabited

inductive SupportPhase where
  | fullSupport
  | maintenanceSupport
  | endOfLife
  | deprecatedPhase
  | unknownPhase
deriving Repr, DecidableEq, Inhabited

inductive LifecycleModel where
  | platformAligned
  | platformAgnostic
  | rollingRelease
  | unknownModel
deriving Repr, DecidableEq, Inhabited

inductive HealthStatus where
  | healthy
  | warning
  | critical
deriving Repr, DecidableEq, Inhabited

structure OperatorInstallation where
  name : String
  displayName : String
  namespace' : String
  currentVersion : String
  currentChannel : String
  catalogSource : String
  catalogNamespace : String
  installedAt : Nat
  updatedAt : Nat
  approved : Bool
deriving Repr, DecidableEq, Inhabited

structure OperatorLifecycleInfo where
  operatorName : String
  version : String
  lifecycleModel : LifecycleModel
  supportPhase : SupportPhase
  fullSupportEndsAt : Option Nat
  maintenanceSupportEndsAt : Option Nat
  eolAt : Option Nat
  minOCPVersion : Option String
  maxOCPVersion : Option String
  recommendedForOCPVersion : Option String
deriving Repr, DecidableEq, Inhabited

structure AvailableUpgrade where
  operatorName : String
  currentVersion : String
  targetVersion : String
  channel : String
  requiresIntermediateUpgrades : Bool
  intermediateVersions : Option (List String)
  releaseDate : Nat
  lifecycleInfo : OperatorLifecycleInfo
deriving Repr, DecidableEq, Inhabited

structure UpgradeIssue where
  id : String
  operatorName : String
  severity : IssueSeverity
  type : IssueType
  title : String
  description : String
  recommendation : String
  affectsClusterUpgrade : Bool
  detectedAt : Nat
deriving Repr, DecidableEq, Inhabited

structure OperatorChannel where
  name : String
  currentCSV : String
  availableVersions : List String
  deprecated : Bool
  deprecationMessage : Option String
  availableInOCPVersion : Option (List String)
deriving Repr, DecidableEq, Inhabited

structure OperatorStatus where
  installation : OperatorInstallation
  lifecycleInfo : OperatorLifecycleInfo
  availableUpgrades : List AvailableUpgrade
  currentChannel : OperatorChannel
  availableChannels : List OperatorChannel
  issues : List UpgradeIssue
  healthStatus : HealthStatus
deriving Repr, DecidableEq, Inhabited

structure ClusterVersion where
  currentVersion : String
  desiredVersion : String
  channel : String
  availableUpdates : List String
  isEUS : Bool
  fullSupportEndsAt : Option Nat
  maintenanceSupportEndsAt : Option Nat
  eolAt : Option Nat
deriving Repr, DecidableEq, Inhabited

/-- Platform snapshot. The unused optional nextMaintenanceWindow field of the
source type (never read or written by the engine) is omitted. -/
structure PlatformStatus where
  cluster : ClusterVersion
  operators : List OperatorStatus
  overallHealth : HealthStatus
  totalIssues : Nat
  criticalIssues : Nat
  supportExpiresIn : Option Int
deriving Repr, DecidableEq, Inhabited

inductive StepType where
  | cluster
  | operator
  | verification
deriving Repr, DecidableEq, Inhabited

structure UpgradeStep where
  order : Nat
  type : StepType
  target : String
  fromVersion : Option String
  toVersion : Option String
  channel : Option String
  description : String
  estimatedDuration : String
  requiredPrerequisites : List String
  rollbackStrategy : String
deriving Repr, DecidableEq, Inhabited

inductive Confidence where
  | high
  | medium
  | low
deriving Repr, DecidableEq, Inhabited

structure UpgradePath where
  id : String
  description : String
  estimatedDuration : String
  confidence : Confidence
  steps : List UpgradeStep
  benefits : List String
  risks : List String
  supportedUntil : Nat
deriving Repr, DecidableEq, Inhabited

inductive WindowPriority where
  | high
  | medium
  | low
deriving Repr, DecidableEq, Inhabited

structure MaintenanceWindow where
  id : String
  recommendedDate : Nat
  priority : WindowPriority
  reason : String
  affectedComponents : List String
  estimatedDuration : String
  upgradePath : UpgradePath
deriving Repr, DecidableEq, Inhabited

/-! ## Version comparator (the subset of npm semver the engine calls) -/

deriving instance DecidableEq for Except

/-- Identifier in a semver prerelease list: numeric identifiers compare
numerically and below alphanumeric ones, which compare lexicographically. -/
inductive PreId where
  | num (n : Nat)
  | str (s : String)
deriving Repr, DecidableEq, Inhabited

/-- Parsed semantic version. Build metadata is validated during parsing but
discarded, as it never participates in precedence. -/
structure Semver where
  major : Nat
  minor : Nat
  patch : Nat
  prerelease : List PreId
deriving Repr, DecidableEq, Inhabited

/-- Numeric value of a digit run, as parseInt with base 10 reads it. -/
def digitsToNat (cs : List Char) : Nat :=
  cs.foldl (fun a c => a * 10 + (c.toNat - 48)) 0

/-- Numeric component of a version: a nonempty digit run with no leading
zero (except the single digit 0), as in the strict semver grammar. -/
def parseNumNoLeadingZero (cs : List Char) : Option Nat :=
  match cs with
  | [] => none
  | c :: rest =>
    if ¬ ((c :: rest).all Char.isDigit) then none
    else if c = '0' ∧ rest ≠ [] then none
    else some (digitsToNat (c :: rest))

/-- Prerelease identifier: numeric without leading zeros, or alphanumeric
(also allowing hyphens). -/
def parsePreId (cs : List Char) : Option PreId :=
  match cs with
  | [] => none
  | _ =>
    if cs.all Char.isDigit then (parseNumNoLeadingZero cs).map PreId.num
    else if cs.all (fun c => c.isAlphanum || c = '-') then some (PreId.str (String.mk cs))
    else none

/-- Build-metadata identifier: nonempty, alphanumeric or hyphen. -/
def buildIdOk (cs : List Char) : Bool :=
  !cs.isEmpty && cs.all (fun c => c.isAlphanum || c = '-')

/-- Split a character list at the first occurrence of a character, returning
the part before it and, when found, the part after it. -/
def breakAtChar (c : Char) : List Char → List Char × Option (List Char)
  | [] => ([], none)
  | x :: xs =>
    if x = c then ([], some xs)
    else
      let r := breakAtChar c xs
      (x :: r.1, r.2)

/-- Split a character list on every occurrence of a character, as splitting a
string on a one-character separator does (an empty list yields one empty
fragment). -/
def splitOnChar (c : Char) : List Char → List (List Char)
  | [] => [[]]
  | x :: xs =>
    if x = c then [] :: splitOnChar c xs
    else
      match splitOnChar c xs with
      | [] => [[x]]
      | h :: t => (x :: h) :: t

/-- Leading whitespace removal for the trim step of the semver constructor. -/
def dropLeadingSpace : List Char → List Char
  | [] => []
  | c :: cs => if c.isWhitespace then dropLeadingSpace cs else c :: cs

/-- Trim on a character list: whitespace removed from both ends. -/
def trimList (cs : List Char) : List Char :=
  (dropLeadingSpace (dropLeadingSpace cs).reverse).reverse

/-- Embedding of semver.parse with default (strict) options: trim, optional
leading v, MAJOR.MINOR.PATCH with no leading zeros, optional prerelease after
the first hyphen, optional build metadata after the first plus sign. The
numeric MAX_SAFE_INTEGER bound and the 256-character cap of the npm
implementation are not modelled; no version string handled by this engine
approaches either. Returns none exactly where the npm function returns null. -/
def svParse (version : String) : Option Semver :=
  let cs := trimList version.toList
  let cs := match cs with
    | 'v' :: rest => rest
    | other => other
  let bodyBuild := breakAtChar '+' cs
  let buildOk := match bodyBuild.2 with
    | none => true
    | some b => (splitOnChar '.' b).all buildIdOk
  if buildOk then
    let corePre := breakAtChar '-' bodyBuild.1
    match splitOnChar '.' corePre.1 with
    | [a, b, c] =>
      match parseNumNoLeadingZero a, parseNumNoLeadingZero b, parseNumNoLeadingZero c with
      | some ma, some mi, some pa =>
        match corePre.2 with
        | none => some ⟨ma, mi, pa, []⟩
        | some p => ((splitOnChar '.' p).mapM parsePreId).map
            (fun l => ⟨ma, mi, pa, l⟩)
      | _, _, _ => none
    | _ => none
  else none

/-- Embedding of semver.valid used as a boolean guard (the source only ever
tests its result for truthiness). -/
def svValid (s : String) : Bool :=
  (svParse s).isSome

def preIdCompare : PreId → PreId → Ordering
  | .num a, .num b => compare a b
  | .num _, .str _ => .lt
  | .str _, .num _ => .gt
  | .str a, .str b => compare a b

def preListCompare : List PreId → List PreId → Ordering
  | [], [] => .eq
  | [], _ :: _ => .lt
  | _ :: _, [] => .gt
  | a :: as, b :: bs => (preIdCompare a b).then (preListCompare as bs)

/-- Prerelease precedence: a release outranks any prerelease of the same
core version; two prerelease lists compare elementwise, a strict prefix
ranking lower. -/
def svComparePre (a b : List PreId) : Ordering :=
  match a, b with
  | [], [] => .eq
  | [], _ :: _ => .gt
  | _ :: _, [] => .lt
  | x :: xs, y :: ys => preIdCompare x y |>.then (preListCompare xs ys)

def svCompareMain (a b : Semver) : Ordering :=
  (compare a.major b.major).then ((compare a.minor b.minor).then (compare a.patch b.patch))

def svCompare (a b : Semver) : Ordering :=
  (svCompareMain a b).then (svComparePre a.prerelease b.prerelease)

/-- Embedding of semver.gt: throws (here: Except.error, with the npm
TypeError message) when either side does not parse, constructing the left
SemVer first as the npm compare does. -/
def svGtE (a b : String) : Except String Bool :=
  match svParse a with
  | none => .error ("Invalid Version: " ++ a)
  | some x =>
    match svParse b with
    | none => .error ("Invalid Version: " ++ b)
    | some y => .ok (svCompare x y = .gt)

/-- Embedding of semver.lt, with the same throwing behaviour as svGtE. -/
def svLtE (a b : String) : Except String Bool :=
  match svParse a with
  | none => .error ("Invalid Version: " ++ a)
  | some x =>
    match svParse b with
    | none => .error ("Invalid Version: " ++ b)
    | some y => .ok (svCompare x y = .lt)

/-- Result alphabet of semver.diff. -/
inductive DiffResult where
  | major
  | premajor
  | minor
  | preminor
  | patch
  | prepatch
  | prerelease
deriving Repr, DecidableEq, Inhabited

/-- Magnitude of the jump between two parsed versions, following the npm
semver diff implementation (including its special cases for jumps out of a
prerelease); returns none for equal versions where the npm function
returns null. -/
def svDiffParsed (v1 v2 : Semver) : Option DiffResult :=
  let comparison := svCompare v1 v2
  if comparison = .eq then none
  else
    let high := if comparison = .gt then v1 else v2
    let low := if comparison = .gt then v2 else v1
    let highHasPre := high.prerelease ≠ []
    let lowHasPre := low.prerelease ≠ []
    if lowHasPre ∧ ¬ highHasPre then
      if low.patch = 0 ∧ low.minor = 0 then some .major
      else if high.patch ≠ 0 then some .patch
      else if high.minor ≠ 0 then some .minor
      else some .major
    else if v1.major ≠ v2.major then some (if highHasPre then .premajor else .major)
    else if v1.minor ≠ v2.minor then some (if highHasPre then .preminor else .minor)
    else if v1.patch ≠ v2.patch then some (if highHasPre then .prepatch else .patch)
    else some .prerelease

/-- Embedding of semver.diff: parses both sides with throwErrors set, so an
unparsable version surfaces as an error exactly as the npm function throws. -/
def svDiffE (a b : String) : Except String (Option DiffResult) :=
  match svParse a with
  | none => .error ("Invalid Version: " ++ a)
  | some x =>
    match svParse b with
    | none => .error ("Invalid Version: " ++ b)
    | some y => .ok (svDiffParsed x y)

/-! ## cleanVersion (identical helper in upgrade-planner and lifecycle services) -/

/-- Longest digit run at the head of a character list, with the remainder. -/
def spanDigits (cs : List Char) : List Char × List Char :=
  match cs with
  | [] => ([], [])
  | c :: rest =>
    if c.isDigit then
      let r := spanDigits rest
      (c :: r.1, r.2)
    else ([], cs)

/-- Match the dotted numeric triple of the regex at the head of the list,
returning the captured group text. -/
def matchTripleAt (cs : List Char) : Option String :=
  let s1 := spanDigits cs
  if s1.1.isEmpty then none
  else
    match s1.2 with
    | '.' :: r2 =>
      let s2 := spanDigits r2
      if s2.1.isEmpty then none
      else
        match s2.2 with
        | '.' :: r4 =>
          let s3 := spanDigits r4
          if s3.1.isEmpty then none
          else some (String.mk (s1.1 ++ '.' :: s2.1 ++ '.' :: s3.1))
        | _ => none
    | _ => none

/-- Unanchored scan for the first match of the cleanVersion regex: at each
position an optional leading v is tried before the digit triple, as the
pattern does. -/
def cleanScan : List Char → Option String
  | [] => none
  | c :: rest =>
    match (if c = 'v' then matchTripleAt rest else matchTripleAt (c :: rest)) with
    | some t => some t
    | none => cleanScan rest

/-- Embedding of cleanVersion: extract the first dotted numeric triple
(optionally preceded by v, which is dropped with the rest of the context);
return the input unchanged when no triple occurs in it. -/
def cleanVersion (version : String) : String :=
  match cleanScan version.toList with
  | some t => t
  | none => version

/-! ## Lifecycle service (lifecycle-service.ts) -/

/-- Embedding of calculateHealthStatus: critical if any critical-severity
issue, else warning if any warning-severity issue, else healthy. -/
def calculateHealthStatus (issues : List UpgradeIssue) : HealthStatus :=
  if issues.any (fun i => i.severity == IssueSeverity.critical) then .critical
  else if issues.any (fun i => i.severity == IssueSeverity.warning) then .warning
  else .healthy

/-- Raw entry of the cluster availableUpdates status list: either a bare
string or an object with an optional version field. -/
inductive ClusterUpdate where
  | str (s : String)
  | obj (version : Option String)
deriving Repr, DecidableEq, Inhabited

/-- Embedding of extractVersionFromUpdate, including the fallback of the
or-empty-string default on the object form. -/
def extractVersionFromUpdate : ClusterUpdate → String
  | .str s => s
  | .obj (some v) => v
  | .obj none => ""

/-- JavaScript or-default on an optional string: the default replaces both a
missing and an empty (falsy) string. -/
def jsStringOr (o : Option String) (d : String) : String :=
  match o with
  | some s => if s = "" then d else s
  | none => d

/-- The stale-channel issue literal of detectUpgradeIssues. -/
def staleChannelIssue (installation : OperatorInstallation) (currentChannel : OperatorChannel)
    (now : Nat) : UpgradeIssue :=
  { id := installation.name ++ "-stale-channel"
    operatorName := installation.name
    severity := .warning
    type := .staleChannel
    title := "Channel is deprecated"
    description := jsStringOr currentChannel.deprecationMessage
      "The current subscription channel has been deprecated."
    recommendation := "Switch to a supported channel: " ++ currentChannel.name
    affectsClusterUpgrade := false
    detectedAt := now }

/-- The maintenance-support issue literal of detectUpgradeIssues. -/
def maintenanceIssue (installation : OperatorInstallation) (now : Nat) : UpgradeIssue :=
  { id := installation.name ++ "-maintenance"
    operatorName := installation.name
    severity := .warning
    type := .lifecycleExpiring
    title := "Operator in maintenance support"
    description := "This operator version is in maintenance support phase."
    recommendation := "Plan an upgrade to a version in full support."
    affectsClusterUpgrade := false
    detectedAt := now }

/-- The end-of-life issue literal of detectUpgradeIssues. -/
def eolIssue (installation : OperatorInstallation) (now : Nat) : UpgradeIssue :=
  { id := installation.name ++ "-eol"
    operatorName := installation.name
    severity := .critical
    type := .lifecycleExpiring
    title := "Operator end of life"
    description := "This operator version has reached end of life."
    recommendation := "Upgrade immediately to a supported version."
    affectsClusterUpgrade := true
    detectedAt := now }

/-- The version-ceiling issue literal of detectUpgradeIssues. -/
def versionCeilingIssue (installation : OperatorInstallation) (nextVersion maxV : String)
    (now : Nat) : UpgradeIssue :=
  { id := installation.name ++ "-version-ceiling"
    operatorName := installation.name
    severity := .critical
    type := .versionCeiling
    title := "Operator blocks cluster upgrade"
    description := "This operator version does not support OCP " ++
      nextVersion ++ ". Max supported: " ++ maxV
    recommendation := "Upgrade operator to a version compatible with OCP " ++
      nextVersion ++ " before upgrading the cluster."
    affectsClusterUpgrade := true
    detectedAt := now }

/-- The version-ceiling block of detectUpgradeIssues: guarded by the
truthiness test of the source on maxOCPVersion (absent or empty is falsy), the
presence of a next available update, and validity of both sides; the
comparison itself is the throwing semver.gt, so the result is
Except-valued. -/
def versionCeilingIssues (installation : OperatorInstallation)
    (lifecycleInfo : OperatorLifecycleInfo) (clusterAvailableUpdates : List ClusterUpdate)
    (now : Nat) : Except String (List UpgradeIssue) :=
  match lifecycleInfo.maxOCPVersion, clusterAvailableUpdates.head? with
  | some maxV, some nextUpdate =>
    if maxV ≠ "" then
      let nextVersion := extractVersionFromUpdate nextUpdate
      if svValid nextVersion ∧ svValid maxV then
        svGtE nextVersion maxV >>= fun g =>
        if g then pure [versionCeilingIssue installation nextVersion maxV now]
        else pure []
      else pure []
    else pure []
  | _, _ => pure []

/-- Embedding of detectUpgradeIssues. The cluster version data the source
fetches mid-function is passed in as the raw availableUpdates list; the
current time is the detectedAt stamp. -/
def detectUpgradeIssues (installation : OperatorInstallation)
    (lifecycleInfo : OperatorLifecycleInfo) (currentChannel : OperatorChannel)
    (clusterAvailableUpdates : List ClusterUpdate) (now : Nat) :
    Except String (List UpgradeIssue) := do
  let issues1 : List UpgradeIssue :=
    if currentChannel.deprecated then [staleChannelIssue installation currentChannel now]
    else []
  let issues2 : List UpgradeIssue :=
    if lifecycleInfo.supportPhase == SupportPhase.maintenanceSupport then
      [maintenanceIssue installation now]
    else []
  let issues3 : List UpgradeIssue :=
    if lifecycleInfo.supportPhase == SupportPhase.endOfLife then [eolIssue installation now]
    else []
  versionCeilingIssues installation lifecycleInfo clusterAvailableUpdates now >>= fun issues4 =>
  pure (issues1 ++ issues2 ++ issues3 ++ issues4)

/-- Embedding of detectAvailableUpgrades. The per-target lifecycle lookup the
source awaits is passed in as a pure lookup function; the current time is the
releaseDate stamp. The push-loop of the source over channels is realized as
structural recursion producing the same list. -/
def detectAvailableUpgrades (installation : OperatorInstallation)
    (lookup : String → String → OperatorLifecycleInfo) (now : Nat) :
    List OperatorChannel → Except String (List AvailableUpgrade)
  | [] => .ok []
  | channel :: rest =>
    let currentVersionClean := cleanVersion installation.currentVersion
    let latestVersion := cleanVersion channel.currentCSV
    (if svValid currentVersionClean ∧ svValid latestVersion then
        svGtE latestVersion currentVersionClean >>= fun g =>
        if g then
          pure [{ operatorName := installation.name
                  currentVersion := installation.currentVersion
                  targetVersion := channel.currentCSV
                  channel := channel.name
                  requiresIntermediateUpgrades := false
                  intermediateVersions := none
                  releaseDate := now
                  lifecycleInfo := lookup installation.name latestVersion }]
        else pure []
      else pure []) >>= fun here =>
    detectAvailableUpgrades installation lookup now rest >>= fun tail =>
    pure (here ++ tail)

/-! ## Duration and support estimation (upgrade-planner-service.ts) -/

/-- Test whether the first list is an initial segment of the second. -/
def leadsWith : List Char → List Char → Bool
  | [], _ => true
  | _ :: _, [] => false
  | p :: ps, c :: cs => p = c && leadsWith ps cs

/-- Tail of the duration pattern: optional whitespace then the literal
word minute (the optional plural s never affects the captured numbers). -/
def matchMinutesAfter (cs : List Char) : Bool :=
  leadsWith "minute".toList (dropLeadingSpace cs)

/-- Match of the duration pattern at one position: a digit run, an optional
hyphen and second digit run, whitespace, the word minute. The returned value
is what the source adds: the second captured group when present, else the
first. Positions where the pattern cannot complete yield none, exactly as
regex backtracking fails there. -/
def matchDurationAt (cs : List Char) : Option Nat :=
  let s1 := spanDigits cs
  if s1.1.isEmpty then none
  else
    match s1.2 with
    | '-' :: r2 =>
      let s2 := spanDigits r2
      if ¬ s2.1.isEmpty then
        if matchMinutesAfter s2.2 then some (digitsToNat s2.1) else none
      else
        if matchMinutesAfter r2 then some (digitsToNat s1.1) else none
    | r1 =>
      if matchMinutesAfter r1 then some (digitsToNat s1.1) else none

/-- Unanchored search for the first match of the duration pattern. -/
def searchDuration : List Char → Option Nat
  | [] => none
  | c :: rest =>
    match matchDurationAt (c :: rest) with
    | some n => some n
    | none => searchDuration rest

/-- Minutes one step contributes to the total: the upper bound of its
duration estimate, zero when the estimate does not match the pattern. -/
def stepMinutes (step : UpgradeStep) : Nat :=
  (searchDuration step.estimatedDuration.toList).getD 0

/-- Total minute count of calculateTotalDuration, before formatting. -/
def totalMinutes (steps : List UpgradeStep) : Nat :=
  steps.foldl (fun acc s => acc + stepMinutes s) 0

/-- Embedding of calculateTotalDuration: sum the per-step maxima and render
as minutes below one hour, else hours and minutes. -/
def calculateTotalDuration (steps : List UpgradeStep) : String :=
  let t := totalMinutes steps
  if t < 60 then toString t ++ " minutes"
  else toString (t / 60) ++ "h " ++ toString (t % 60) ++ "m"

/-- Embedding of calculateSupportedUntil: the source advances the current
date by 18 calendar months (setMonth of getMonth plus 18) and ignores both
arguments. Calendar-month lengths are not representable on bare millisecond
timestamps, so the shift is embedded as 18 thirty-day months; nothing below
inspects this value beyond its dependence on the current time. -/
def calculateSupportedUntil (_platformStatus : PlatformStatus)
    (_steps : List UpgradeStep) (now : Nat) : Nat :=
  now + 18 * 30 * 24 * 60 * 60 * 1000

/-- Order numbering of the push-loops of the source: the counter starts at 1 and
is incremented once per pushed step, so the k-th step of the finished list
carries order k. -/
def numberFrom (n : Nat) : List UpgradeStep → List UpgradeStep
  | [] => []
  | s :: rest => { s with order := n } :: numberFrom (n + 1) rest

/-- Substring occurrence scan backing the String.prototype.includes tests. -/
def hasSub (pat : List Char) : List Char → Bool
  | [] => leadsWith pat []
  | c :: cs => leadsWith pat (c :: cs) || hasSub pat cs

/-- JavaScript includes on strings. -/
def strContains (s pat : String) : Bool :=
  hasSub pat.toList s.toList

/-! ## Upgrade selection helpers (upgrade-planner-service.ts) -/

/-- The reduce callback of findConservativeUpgrade as structural recursion
over the remaining candidates: a patch-magnitude candidate replaces the
accumulator, a minor-magnitude candidate replaces it when its target is
lower by semver.lt, anything else keeps the accumulator; the throwing diff
and lt comparisons propagate as errors. -/
def conservativeFold (currentVersion : String) :
    AvailableUpgrade → List AvailableUpgrade → Except String AvailableUpgrade
  | closest, [] => .ok closest
  | closest, current :: rest => do
    let closestVersion := cleanVersion closest.targetVersion
    let currentTargetVersion := cleanVersion current.targetVersion
    let d ← svDiffE currentVersion currentTargetVersion
    if d = some DiffResult.patch then conservativeFold currentVersion current rest
    else if d = some DiffResult.minor then do
      let l ← svLtE currentTargetVersion closestVersion
      if l then conservativeFold currentVersion current rest
      else conservativeFold currentVersion closest rest
    else conservativeFold currentVersion closest rest

/-- Embedding of findConservativeUpgrade: none on an empty candidate list;
the first candidate when the cleaned current version does not parse; else
the reduce over the candidates, seeded with the first. -/
def findConservativeUpgrade (op : OperatorStatus) : Except String (Option AvailableUpgrade) :=
  match op.availableUpgrades with
  | [] => .ok none
  | u0 :: rest =>
    let currentVersion := cleanVersion op.installation.currentVersion
    match svParse currentVersion with
    | none => .ok (some u0)
    | some _ => (conservativeFold currentVersion u0 rest).map some

/-- The reduce of generateAggressivePath picking the candidate with the
numerically highest cleaned target, via the throwing semver.gt. -/
def latestFold : AvailableUpgrade → List AvailableUpgrade → Except String AvailableUpgrade
  | latest, [] => .ok latest
  | latest, current :: rest => do
    let g ← svGtE (cleanVersion current.targetVersion) (cleanVersion latest.targetVersion)
    latestFold (if g then current else latest) rest

/-- Embedding of findBalancedUpgrade: the last candidate whose channel name
contains stable or recommended, else the middle candidate by position. -/
def findBalancedUpgrade (op : OperatorStatus) : Option AvailableUpgrade :=
  if op.availableUpgrades.isEmpty then none
  else
    let stableUpgrades := op.availableUpgrades.filter
      (fun u => strContains u.channel "stable" || strContains u.channel "recommended")
    if ¬ stableUpgrades.isEmpty then stableUpgrades.getLast?
    else op.availableUpgrades.get? (op.availableUpgrades.length / 2)

/-- Embedding of isSignificantlyOutdated: false without candidates or when
either cleaned version is invalid, else whether the diff against the last
candidate is minor or major. The diff sits behind the validity guards in the
source, so the Except value is always ok. -/
def isSignificantlyOutdated (op : OperatorStatus) : Except String Bool :=
  match op.availableUpgrades.getLast? with
  | none => .ok false
  | some lastU =>
    let currentVersion := cleanVersion op.installation.currentVersion
    let latestVersion := cleanVersion lastU.targetVersion
    if ¬ svValid currentVersion ∨ ¬ svValid latestVersion then .ok false
    else do
      let d ← svDiffE currentVersion latestVersion
      pure (d == some DiffResult.minor || d == some DiffResult.major)

/-! ## Step builders (the step literals each strategy pushes) -/

/-- Verification step of the critical-issues path. -/
def criticalVerificationStep : UpgradeStep :=
  { order := 0
    type := .verification
    target := "cluster"
    fromVersion := none
    toVersion := none
    channel := none
    description := "Verify cluster health and backup current state"
    estimatedDuration := "15 minutes"
    requiredPrerequisites := ["Cluster backup", "etcd snapshot"]
    rollbackStrategy := "Restore from backup" }

/-- Verification step of the conservative, aggressive and balanced paths. -/
def basicVerificationStep : UpgradeStep :=
  { order := 0
    type := .verification
    target := "cluster"
    fromVersion := none
    toVersion := none
    channel := none
    description := "Verify cluster health and backup"
    estimatedDuration := "15 minutes"
    requiredPrerequisites := ["Cluster backup"]
    rollbackStrategy := "Restore from backup" }

def criticalOperatorStep (op : OperatorStatus) (upgrade : AvailableUpgrade) : UpgradeStep :=
  { order := 0
    type := .operator
    target := op.installation.name
    fromVersion := some op.installation.currentVersion
    toVersion := some upgrade.targetVersion
    channel := some upgrade.channel
    description := "Upgrade " ++ op.installation.displayName ++ " to resolve critical issues"
    estimatedDuration := "10-20 minutes"
    requiredPrerequisites := ["Review operator documentation", "Check for breaking changes"]
    rollbackStrategy := "Uninstall and reinstall previous version" }

def conservativeOperatorStep (op : OperatorStatus) (upgrade : AvailableUpgrade) : UpgradeStep :=
  { order := 0
    type := .operator
    target := op.installation.name
    fromVersion := some op.installation.currentVersion
    toVersion := some upgrade.targetVersion
    channel := some upgrade.channel
    description := "Conservative upgrade of " ++ op.installation.displayName
    estimatedDuration := "10-20 minutes"
    requiredPrerequisites := ["Review release notes"]
    rollbackStrategy := "Reinstall previous version" }

def aggressiveOperatorStep (op : OperatorStatus) (upgrade : AvailableUpgrade) : UpgradeStep :=
  { order := 0
    type := .operator
    target := op.installation.name
    fromVersion := some op.installation.currentVersion
    toVersion := some upgrade.targetVersion
    channel := some upgrade.channel
    description := "Upgrade " ++ op.installation.displayName ++ " to latest version"
    estimatedDuration := "10-20 minutes"
    requiredPrerequisites := ["Review all release notes", "Check for breaking changes"]
    rollbackStrategy := "Reinstall previous version" }

def balancedOperatorStep (op : OperatorStatus) (upgrade : AvailableUpgrade) : UpgradeStep :=
  { order := 0
    type := .operator
    target := op.installation.name
    fromVersion := some op.installation.currentVersion
    toVersion := some upgrade.targetVersion
    channel := some upgrade.channel
    description := "Upgrade " ++ op.installation.displayName ++ " to recommended version"
    estimatedDuration := "10-20 minutes"
    requiredPrerequisites := ["Review release notes"]
    rollbackStrategy := "Reinstall previous version" }

def criticalClusterStep (ps : PlatformStatus) (nextVersion : String) : UpgradeStep :=
  { order := 0
    type := .cluster
    target := "OpenShift Cluster"
    fromVersion := some ps.cluster.currentVersion
    toVersion := some nextVersion
    channel := some ps.cluster.channel
    description := "Upgrade OpenShift to " ++ nextVersion
    estimatedDuration := "45-90 minutes"
    requiredPrerequisites := ["All operators compatible", "Cluster health verified", "Backup completed"]
    rollbackStrategy := "Not supported - ensure all prerequisites are met" }

def aggressiveClusterStep (ps : PlatformStatus) (latestVersion : String) : UpgradeStep :=
  { order := 0
    type := .cluster
    target := "OpenShift Cluster"
    fromVersion := some ps.cluster.currentVersion
    toVersion := some latestVersion
    channel := some ps.cluster.channel
    description := "Upgrade OpenShift to latest version " ++ latestVersion
    estimatedDuration := "45-90 minutes"
    requiredPrerequisites := ["All operators compatible", "Cluster health verified", "Backup completed"]
    rollbackStrategy := "Not supported - ensure all prerequisites are met" }

def balancedClusterStep (ps : PlatformStatus) (targetVersion : String) : UpgradeStep :=
  { order := 0
    type := .cluster
    target := "OpenShift Cluster"
    fromVersion := some ps.cluster.currentVersion
    toVersion := some targetVersion
    channel := some ps.cluster.channel
    description := "Upgrade OpenShift to " ++ targetVersion
    estimatedDuration := "45-90 minutes"
    requiredPrerequisites := ["All operators compatible", "Cluster health verified"]
    rollbackStrategy := "Not supported" }

/-! ## The four path-generation strategies -/

/-- Embedding of generateCriticalIssuePath. Note the source returns a path
whenever a critical operator exists, with no suppression of a path holding
only the verification step. -/
def generateCriticalIssuePath (ps : PlatformStatus) (now : Nat) : Option UpgradePath :=
  let criticalOperators := ps.operators.filter
    (fun op => op.issues.any (fun i => i.severity == IssueSeverity.critical))
  if criticalOperators.isEmpty then none
  else
    let opSteps := criticalOperators.filterMap
      (fun op => (op.availableUpgrades.head?).map (criticalOperatorStep op))
    let clusterSteps := match ps.cluster.availableUpdates.head? with
      | some nextVersion => [criticalClusterStep ps nextVersion]
      | none => []
    let steps := numberFrom 1 (criticalVerificationStep :: opSteps ++ clusterSteps)
    some { id := "critical-issues-path"
           description := "Address critical issues that block cluster operations and upgrades"
           estimatedDuration := calculateTotalDuration steps
           confidence := .high
           steps := steps
           benefits := ["Resolves blocking issues", "Enables cluster upgrade", "Reduces immediate risks"]
           risks := ["May require multiple operator updates", "Some downtime expected"]
           supportedUntil := calculateSupportedUntil ps steps now }

/-- The conservative loop over the warning-affected operators, pushing one
step per operator for which findConservativeUpgrade yields a candidate. -/
def conservativeSteps : List OperatorStatus → Except String (List UpgradeStep)
  | [] => .ok []
  | op :: rest => do
    let u? ← findConservativeUpgrade op
    let tail ← conservativeSteps rest
    match u? with
    | some u => pure (conservativeOperatorStep op u :: tail)
    | none => pure tail

/-- Embedding of generateConservativePath: verification plus one step per
warning-affected operator with a conservative candidate; none when only the
verification step remains. -/
def generateConservativePath (ps : PlatformStatus) (now : Nat) :
    Except String (Option UpgradePath) := do
  let operatorsWithWarnings := ps.operators.filter
    (fun op => op.issues.any (fun i => i.severity == IssueSeverity.warning))
  let opSteps ← conservativeSteps operatorsWithWarnings
  let steps := numberFrom 1 (basicVerificationStep :: opSteps)
  if steps.length = 1 then pure none
  else
    pure (some
      { id := "conservative-path"
        description := "Minimal upgrades to extend support without major version changes"
        estimatedDuration := calculateTotalDuration steps
        confidence := .high
        steps := steps
        benefits := ["Minimal risk", "Extends support period", "Small scope of changes"]
        risks := ["May need another upgrade soon", "Not addressing all available updates"]
        supportedUntil := calculateSupportedUntil ps steps now })

/-- The aggressive loop over all operators, pushing the reduce-selected
latest candidate for each operator that has any. -/
def aggressiveSteps : List OperatorStatus → Except String (List UpgradeStep)
  | [] => .ok []
  | op :: rest =>
    match op.availableUpgrades with
    | [] => aggressiveSteps rest
    | u0 :: us => do
      let latestUpgrade ← latestFold u0 us
      let tail ← aggressiveSteps rest
      pure (aggressiveOperatorStep op latestUpgrade :: tail)

/-- Embedding of generateAggressivePath: verification, one step per operator
with candidates, and a cluster step to the last available update when one
exists; none when only the verification step remains. -/
def generateAggressivePath (ps : PlatformStatus) (now : Nat) :
    Except String (Option UpgradePath) := do
  let opSteps ← aggressiveSteps ps.operators
  let clusterSteps := match ps.cluster.availableUpdates.getLast? with
    | some latestVersion => [aggressiveClusterStep ps latestVersion]
    | none => []
  let steps := numberFrom 1 (basicVerificationStep :: opSteps ++ clusterSteps)
  if steps.length = 1 then pure none
  else
    pure (some
      { id := "aggressive-path"
        description := "Upgrade all components to latest versions for maximum support duration"
        estimatedDuration := calculateTotalDuration steps
        confidence := .medium
        steps := steps
        benefits := ["Maximum support duration", "Latest features and fixes", "Fewest future maintenance windows"]
        risks := ["More potential for breaking changes", "Longer maintenance window", "More testing required"]
        supportedUntil := calculateSupportedUntil ps steps now })

/-- The balanced loop over all operators: an operator qualifies with any
issue (checked first, short-circuiting) or when significantly outdated, and
must still have candidates; the step targets the findBalancedUpgrade pick. -/
def balancedSteps : List OperatorStatus → Except String (List UpgradeStep)
  | [] => .ok []
  | op :: rest =>
    (if !op.issues.isEmpty then pure true else isSignificantlyOutdated op) >>= fun shouldUpgrade =>
    (if shouldUpgrade && !op.availableUpgrades.isEmpty then
        match findBalancedUpgrade op with
        | some targetUpgrade => pure [balancedOperatorStep op targetUpgrade]
        | none => pure []
      else pure ([] : List UpgradeStep)) >>= fun here =>
    balancedSteps rest >>= fun tail =>
    pure (here ++ tail)

/-- Embedding of generateBalancedPath: verification, the balanced operator
steps, and a cluster step to the first available update when one exists;
none when only the verification step remains. -/
def generateBalancedPath (ps : PlatformStatus) (now : Nat) :
    Except String (Option UpgradePath) := do
  let opSteps ← balancedSteps ps.operators
  let clusterSteps := match ps.cluster.availableUpdates.head? with
    | some targetVersion => [balancedClusterStep ps targetVersion]
    | none => []
  let steps := numberFrom 1 (basicVerificationStep :: opSteps ++ clusterSteps)
  if steps.length = 1 then pure none
  else
    pure (some
      { id := "balanced-path"
        description := "Optimal balance of risk, effort, and support duration"
        estimatedDuration := calculateTotalDuration steps
        confidence := .high
        steps := steps
        benefits := ["Good balance of risk and reward", "Addresses key issues", "Reasonable maintenance window", "Extended support period"]
        risks := ["Some operator updates required", "Moderate testing effort"]
        supportedUntil := calculateSupportedUntil ps steps now })

/-- Embedding of generateUpgradePaths: the four strategies in order, each
contributing its path when present; an error from any Except-valued strategy
aborts the whole generation, as the thrown TypeError would. -/
def generateUpgradePaths (ps : PlatformStatus) (now : Nat) :
    Except String (List UpgradePath) := do
  let paths0 : List UpgradePath := []
  let paths1 := match generateCriticalIssuePath ps now with
    | some p => paths0 ++ [p]
    | none => paths0
  let conservativePath ← generateConservativePath ps now
  let paths2 := match conservativePath with
    | some p => paths1 ++ [p]
    | none => paths1
  let aggressivePath ← generateAggressivePath ps now
  let paths3 := match aggressivePath with
    | some p => paths2 ++ [p]
    | none => paths2
  let balancedPath ← generateBalancedPath ps now
  let paths4 := match balancedPath with
    | some p => paths3 ++ [p]
    | none => paths3
  pure paths4

/-! ## Maintenance-window scheduler (upgrade-planner-service.ts) -/

/-- Embedding of extractAffectedComponents: targets of all steps other than
verification steps. -/
def extractAffectedComponents (path : UpgradePath) : List String :=
  (path.steps.filter (fun s => s.type != StepType.verification)).map (fun s => s.target)

/-- Embedding of generateMaintenanceWindows. The third rule keeps the
truthiness guard of the source on supportExpiresIn, under which the value 0 acts
as absent. -/
def generateMaintenanceWindows (ps : PlatformStatus) (paths : List UpgradePath)
    (now : Nat) : List MaintenanceWindow :=
  let w1 :=
    if 0 < ps.criticalIssues then
      match paths.find? (fun p => p.id == "critical-issues-path") with
      | some criticalPath =>
        [{ id := "immediate-window"
           recommendedDate := now + 7 * 24 * 60 * 60 * 1000
           priority := .high
           reason := "Critical issues detected that may block cluster operations"
           affectedComponents := extractAffectedComponents criticalPath
           estimatedDuration := criticalPath.estimatedDuration
           upgradePath := criticalPath }]
      | none => []
    else []
  let w2 :=
    match paths.find? (fun p => p.id == "balanced-path") with
    | some balancedPath =>
      [{ id := "regular-maintenance"
         recommendedDate := now + 30 * 24 * 60 * 60 * 1000
         priority := if 0 < ps.criticalIssues then WindowPriority.high else WindowPriority.medium
         reason := "Regular maintenance to keep platform current and supported"
         affectedComponents := extractAffectedComponents balancedPath
         estimatedDuration := balancedPath.estimatedDuration
         upgradePath := balancedPath }]
    | none => []
  let w3 :=
    match ps.supportExpiresIn with
    | some n =>
      if n ≠ 0 ∧ n < 90 then
        match paths.find? (fun p => p.id == "aggressive-path") with
        | some aggressivePath =>
          [{ id := "lifecycle-maintenance"
             recommendedDate := now + 14 * 24 * 60 * 60 * 1000
             priority := .high
             reason := "Platform support expires in " ++ toString n ++ " days"
             affectedComponents := extractAffectedComponents aggressivePath
             estimatedDuration := aggressivePath.estimatedDuration
             upgradePath := aggressivePath }]
        | none => []
      else []
    | none => []
  w1 ++ w2 ++ w3

/-! ## Concrete snapshots used as counterexamples and witnesses -/

/-- Lifecycle info in full support with no bounds. -/
def fxLifecycle : OperatorLifecycleInfo :=
  { operatorName := "x", version := "1.0.0", lifecycleModel := .platformAgnostic,
    supportPhase := .fullSupport, fullSupportEndsAt := none, maintenanceSupportEndsAt := none,
    eolAt := none, minOCPVersion := none, maxOCPVersion := none,
    recommendedForOCPVersion := none }

/-- Lifecycle info in the maintenance-support phase. -/
def fxLifecycleMaintenance : OperatorLifecycleInfo :=
  { fxLifecycle with supportPhase := .maintenanceSupport }

/-- Lifecycle info in the end-of-life phase. -/
def fxLifecycleEol : OperatorLifecycleInfo :=
  { fxLifecycle with supportPhase := .endOfLife }

/-- Lifecycle info with a version-ceiling bound. -/
def fxLifecycleCeiling : OperatorLifecycleInfo :=
  { fxLifecycle with maxOCPVersion := some "4.16.0" }

/-- Installation record for an operator at a given current version. -/
def fxInstallation (nm cv : String) : OperatorInstallation :=
  { name := nm, displayName := nm, namespace' := "ns", currentVersion := cv,
    currentChannel := "stable", catalogSource := "cs", catalogNamespace := "cn",
    installedAt := 0, updatedAt := 0, approved := true }

/-- A non-deprecated channel. -/
def fxChannel : OperatorChannel :=
  { name := "stable", currentCSV := "x.v1.1.0", availableVersions := [],
    deprecated := false, deprecationMessage := none, availableInOCPVersion := none }

/-- A deprecated channel. -/
def fxChannelDeprecated : OperatorChannel :=
  { fxChannel with deprecated := true }

/-- Candidate upgrade to a given target version. -/
def fxUpgrade (tv : String) : AvailableUpgrade :=
  { operatorName := "x", currentVersion := "1.0.0", targetVersion := tv, channel := "stable",
    requiresIntermediateUpgrades := false, intermediateVersions := none, releaseDate := 0,
    lifecycleInfo := fxLifecycle }

/-- A critical-severity issue. -/
def fxIssueCritical : UpgradeIssue :=
  { id := "x-eol", operatorName := "x", severity := .critical, type := .lifecycleExpiring,
    title := "t", description := "d", recommendation := "r", affectsClusterUpgrade := true,
    detectedAt := 0 }

/-- A warning-severity issue. -/
def fxIssueWarning : UpgradeIssue :=
  { id := "x-maintenance", operatorName := "x", severity := .warning, type := .lifecycleExpiring,
    title := "t", description := "d", recommendation := "r", affectsClusterUpgrade := false,
    detectedAt := 0 }

/-- Operator status from a name, current version, candidate list and issues. -/
def fxOperator (nm cv : String) (ups : List AvailableUpgrade) (iss : List UpgradeIssue) :
    OperatorStatus :=
  { installation := fxInstallation nm cv, lifecycleInfo := fxLifecycle,
    availableUpgrades := ups, currentChannel := fxChannel, availableChannels := [fxChannel],
    issues := iss, healthStatus := calculateHealthStatus iss }

/-- Cluster at 4.16.0 with a given update list. -/
def fxCluster (upd : List String) : ClusterVersion :=
  { currentVersion := "4.16.0", desiredVersion := "4.16.0", channel := "stable-4.16",
    availableUpdates := upd, isEUS := false, fullSupportEndsAt := none,
    maintenanceSupportEndsAt := none, eolAt := none }

/-- Platform snapshot from operators, updates, critical count and expiry. -/
def fxPlatform (ops : List OperatorStatus) (upd : List String) (ci : Nat)
    (sei : Option Int) : PlatformStatus :=
  { cluster := fxCluster upd, operators := ops, overallHealth := .healthy,
    totalIssues := 0, criticalIssues := ci, supportExpiresIn := sei }

/-- A critical operator with no candidates on a cluster with no updates: the
critical-issues strategy emits a verification-only path here. -/
def c1cexPS : PlatformStatus := fxPlatform [fxOperator "x" "1.0.0" [] [fxIssueCritical]] [] 1 none

/-- A warning operator whose only candidate is a full major jump. -/
def c2cexPS : PlatformStatus :=
  fxPlatform [fxOperator "x" "1.0.0" [fxUpgrade "2.0.0"] [fxIssueWarning]] [] 0 none

/-- The single-candidate operator of the conservative witness. -/
def c2wOp : OperatorStatus := fxOperator "x" "1.0.0" [fxUpgrade "3.0.0"] [fxIssueWarning]

/-- An operator whose candidates have unnormalizable target versions: the
aggressive reduce throws on it. -/
def c3cexPS : PlatformStatus :=
  fxPlatform [fxOperator "x" "1.0.0" [fxUpgrade "not-a-version", fxUpgrade "also-bad"] []] [] 0 none

/-- A snapshot on which all four strategies produce a path, with two
platform updates to separate first from last. -/
def c4wPS : PlatformStatus :=
  fxPlatform [fxOperator "x" "1.0.0" [fxUpgrade "1.1.0"] [fxIssueCritical, fxIssueWarning]]
    ["4.16.1", "4.16.5"] 1 (some 45)

/-- A warning operator whose current version holds no dotted triple. -/
def c5cexPS : PlatformStatus :=
  fxPlatform [fxOperator "x" "unknown-version" [fxUpgrade "5.5.5"] [fxIssueWarning]] [] 0 none

/-- A path carrying the aggressive id, as the window scheduler looks it up. -/
def c6AggPath : UpgradePath :=
  { id := "aggressive-path", description := "d", estimatedDuration := "15 minutes",
    confidence := .medium, steps := [], benefits := [], risks := [], supportedUntil := 0 }

/-- Support expiring in exactly zero days. -/
def c6cexPS : PlatformStatus := fxPlatform [] [] 0 (some 0)

/-- Support expiring in 45 days. -/
def c6wPS : PlatformStatus := fxPlatform [] [] 0 (some 45)

/-- The path a strategy produced, unwrapped for witness statements. -/
def okPathOf (x : Except String (Option UpgradePath)) : UpgradePath :=
  (x.toOption.bind id).getD default

/-- The first cluster-typed step of a path, for witness statements. -/
def clusterStepOf (p : UpgradePath) : UpgradeStep :=
  ((p.steps.filter (fun s => s.type == StepType.cluster)).head?).getD default

/-- The critical path of the witness snapshot. -/
def c4wPCrit : UpgradePath := (generateCriticalIssuePath c4wPS 0).getD default

/-- The conservative path of the witness snapshot. -/
def c4wPCons : UpgradePath := okPathOf (generateConservativePath c4wPS 0)

/-- The aggressive path of the witness snapshot. -/
def c4wPAgg : UpgradePath := okPathOf (generateAggressivePath c4wPS 0)

/-- The balanced path of the witness snapshot. -/
def c4wPBal : UpgradePath := okPathOf (generateBalancedPath c4wPS 0)

/-- Moving the generation instant only moves the supportedUntil stamp. -/
def retimePath (t : Nat) (p : UpgradePath) : UpgradePath :=
  { p with supportedUntil := t + 18 * 30 * 24 * 60 * 60 * 1000 }

/-- Moving the detection instant only moves the detectedAt stamp. -/
def retimeIssue (t : Nat) (i : UpgradeIssue) : UpgradeIssue :=
  { i with detectedAt := t }

/-- Installation fixture of the detection witnesses. -/
def c5wInstallation : OperatorInstallation := fxInstallation "x" "1.0.0"

/-- The upgrades detected from the stable channel for the witness. -/
def c5wUpgList : List AvailableUpgrade :=
  (detectAvailableUpgrades c5wInstallation (fun _ _ => fxLifecycle) 0 [fxChannel]).toOption.getD []

/-- The single detected upgrade of the witness. -/
def c5wU : AvailableUpgrade := (c5wUpgList.head?).getD default

/-- The ceiling issues of the witness: bound 4.16.0 against next update 4.17.0. -/
def c5wIssueList : List UpgradeIssue :=
  (versionCeilingIssues c5wInstallation fxLifecycleCeiling [ClusterUpdate.str "4.17.0"] 0).toOption.getD []

/-- The single ceiling issue of the witness. -/
def c5wI : UpgradeIssue := (c5wIssueList.head?).getD default

/-- The unparsable-current-version operator of the C5 witness. -/
def c5wOp : OperatorStatus := fxOperator "x" "unknown-version" [fxUpgrade "5.5.5"] [fxIssueWarning]

/-- The detection run of the C7 witness: a deprecated channel. -/
def c7wIssueList : List UpgradeIssue :=
  (detectUpgradeIssues (fxInstallation "x" "1.0.0") fxLifecycle fxChannelDeprecated
    [] 0).toOption.getD []

/-- The single issue of the C7 witness run. -/
def c7wI : UpgradeIssue := (c7wIssueList.head?).getD default

/-- The first operator-typed step of a path, for witness statements. -/
def operatorStepOf (p : UpgradePath) : UpgradeStep :=
  ((p.steps.filter (fun s => s.type == StepType.operator)).head?).getD default

/-- The path list generated on the witness snapshot. -/
def c8wPaths : List UpgradePath := (generateUpgradePaths c4wPS 0).toOption.getD []

/-! ## General lemmas about the embedding -/

theorem exceptOkBind {α β : Type} (a : α) (f : α → Except String β) :
    (Except.ok a : Except String α) >>= f = f a := rfl

theorem exceptErrBind {α β : Type} (e : String) (f : α → Except String β) :
    (Except.error e : Except String α) >>= f = Except.error e := rfl

theorem numberFrom_cons (n : Nat) (s : UpgradeStep) (rest : List UpgradeStep) :
    numberFrom n (s :: rest) = { s with order := n } :: numberFrom (n + 1) rest := rfl

theorem numberFrom_length (l : List UpgradeStep) : ∀ n, (numberFrom n l).length = l.length := by
  induction l with
  | nil => intro n; rfl
  | cons s rest ih => intro n; simp [numberFrom, ih]

/-- Every field but the order survives the renumbering, and conversely every
numbered step comes from a step of the input list. -/
theorem numberFrom_mem (l : List UpgradeStep) :
    ∀ n s, s ∈ numberFrom n l → ∃ s' ∈ l, s.type = s'.type ∧ s.target = s'.target ∧
      s.fromVersion = s'.fromVersion ∧ s.toVersion = s'.toVersion ∧ s.channel = s'.channel := by
  induction l with
  | nil => intro n s h; simp [numberFrom] at h
  | cons x rest ih =>
    intro n s h
    rw [numberFrom_cons] at h
    rcases List.mem_cons.mp h with h1 | h2
    · exact ⟨x, List.mem_cons_self x rest, by simp [h1]⟩
    · rcases ih (n + 1) s h2 with ⟨s', hs', hp⟩
      exact ⟨s', List.mem_cons_of_mem x hs', hp⟩

/-- The semver comparisons cannot fail on two valid version strings. -/
theorem svGtE_ok_of_valid {a b : String} (ha : svValid a = true) (hb : svValid b = true) :
    ∃ r, svGtE a b = .ok r := by
  unfold svValid at ha hb
  unfold svGtE
  cases hpa : svParse a with
  | none => rw [hpa] at ha; simp at ha
  | some x =>
    cases hpb : svParse b with
    | none => rw [hpb] at hb; simp at hb
    | some y => exact ⟨_, rfl⟩

theorem svDiffE_ok_of_valid {a b : String} (ha : svValid a = true) (hb : svValid b = true) :
    ∃ r, svDiffE a b = .ok r := by
  unfold svValid at ha hb
  unfold svDiffE
  cases hpa : svParse a with
  | none => rw [hpa] at ha; simp at ha
  | some x =>
    cases hpb : svParse b with
    | none => rw [hpb] at hb; simp at hb
    | some y => exact ⟨_, rfl⟩

/-- Origin of every step the conservative loop emits. -/
theorem conservativeSteps_mem :
    ∀ (ops : List OperatorStatus) (l : List UpgradeStep), conservativeSteps ops = .ok l →
      ∀ s ∈ l, ∃ op ∈ ops, ∃ u, findConservativeUpgrade op = .ok (some u) ∧
        s = conservativeOperatorStep op u := by
  intro ops
  induction ops with
  | nil =>
    intro l h s hs
    unfold conservativeSteps at h
    cases h
    simp at hs
  | cons op rest ih =>
    intro l h s hs
    unfold conservativeSteps at h
    cases hf : findConservativeUpgrade op with
    | error e => rw [hf, exceptErrBind] at h; cases h
    | ok uo =>
      rw [hf, exceptOkBind] at h
      cases ht : conservativeSteps rest with
      | error e => rw [ht, exceptErrBind] at h; cases h
      | ok tl =>
        rw [ht, exceptOkBind] at h
        cases uo with
        | none =>
          cases h
          rcases ih _ ht s hs with ⟨op', hop', u, hu, hs'⟩
          exact ⟨op', List.mem_cons_of_mem op hop', u, hu, hs'⟩
        | some u =>
          cases h
          rcases List.mem_cons.mp hs with h1 | h2
          · exact ⟨op, List.mem_cons_self op rest, u, hf, h1⟩
          · rcases ih _ ht s h2 with ⟨op', hop', u', hu', hs'⟩
            exact ⟨op', List.mem_cons_of_mem op hop', u', hu', hs'⟩

/-- Origin of every step the aggressive loop emits. -/
theorem aggressiveSteps_mem :
    ∀ (ops : List OperatorStatus) (l : List UpgradeStep), aggressiveSteps ops = .ok l →
      ∀ s ∈ l, ∃ op ∈ ops, ∃ u0 us u, op.availableUpgrades = u0 :: us ∧
        latestFold u0 us = .ok u ∧ s = aggressiveOperatorStep op u := by
  intro ops
  induction ops with
  | nil =>
    intro l h s hs
    unfold aggressiveSteps at h
    cases h
    simp at hs
  | cons op rest ih =>
    intro l h s hs
    unfold aggressiveSteps at h
    split at h
    · rcases ih _ h s hs with ⟨op', hop', w⟩
      exact ⟨op', List.mem_cons_of_mem op hop', w⟩
    · rename_i u0 us hav
      cases hlf : latestFold u0 us with
      | error e => rw [hlf, exceptErrBind] at h; cases h
      | ok u =>
        rw [hlf, exceptOkBind] at h
        cases ht : aggressiveSteps rest with
        | error e => rw [ht, exceptErrBind] at h; cases h
        | ok tl =>
          rw [ht, exceptOkBind] at h
          cases h
          rcases List.mem_cons.mp hs with h1 | h2
          · exact ⟨op, List.mem_cons_self op rest, u0, us, u, hav, hlf, h1⟩
          · rcases ih _ ht s h2 with ⟨op', hop', w⟩
            exact ⟨op', List.mem_cons_of_mem op hop', w⟩

/-- Origin of every step the balanced loop emits. -/
theorem balancedSteps_mem :
    ∀ (ops : List OperatorStatus) (l : List UpgradeStep), balancedSteps ops = .ok l →
      ∀ s ∈ l, ∃ op ∈ ops, ∃ u, op.availableUpgrades ≠ [] ∧
        findBalancedUpgrade op = some u ∧ s = balancedOperatorStep op u := by
  intro ops
  induction ops with
  | nil =>
    intro l h s hs
    unfold balancedSteps at h
    cases h
    simp at hs
  | cons op rest ih =>
    intro l h s hs
    unfold balancedSteps at h
    cases hsh : (if !op.issues.isEmpty then pure true else isSignificantlyOutdated op :
        Except String Bool) with
    | error e => rw [hsh, exceptErrBind] at h; cases h
    | ok shouldUpgrade =>
      rw [hsh, exceptOkBind] at h
      cases hhe : (if shouldUpgrade && !op.availableUpgrades.isEmpty then
            match findBalancedUpgrade op with
            | some targetUpgrade => pure [balancedOperatorStep op targetUpgrade]
            | none => pure []
          else pure ([] : List UpgradeStep) : Except String (List UpgradeStep)) with
      | error e => rw [hhe, exceptErrBind] at h; cases h
      | ok here =>
        rw [hhe, exceptOkBind] at h
        cases ht : balancedSteps rest with
        | error e => rw [ht, exceptErrBind] at h; cases h
        | ok tl =>
          rw [ht, exceptOkBind] at h
          cases h
          rcases List.mem_append.mp hs with h1 | h2
          · by_cases hc : (shouldUpgrade && !op.availableUpgrades.isEmpty) = true
            · rw [if_pos hc] at hhe
              cases hfb : findBalancedUpgrade op with
              | none => rw [hfb] at hhe; cases hhe; simp at h1
              | some u =>
                rw [hfb] at hhe
                cases hhe
                rcases List.mem_singleton.mp h1 with rfl
                refine ⟨op, List.mem_cons_self op rest, u, ?_, hfb, rfl⟩
                have hne := (Bool.and_eq_true _ _).mp hc
                intro hnil
                rw [hnil] at hne
                simp at hne
            · rw [if_neg hc] at hhe
              cases hhe
              simp at h1
          · rcases ih _ ht s h2 with ⟨op', hop', w⟩
            exact ⟨op', List.mem_cons_of_mem op hop', w⟩

/-- A conservative candidate only exists when the operator has upgrades. -/
theorem findConservativeUpgrade_some_nonempty {op : OperatorStatus} {u : AvailableUpgrade}
    (h : findConservativeUpgrade op = .ok (some u)) : op.availableUpgrades ≠ [] := by
  intro hnil
  unfold findConservativeUpgrade at h
  rw [hnil] at h
  cases h

/-- The validity guards in front of the diff make isSignificantlyOutdated
total: the source cannot observe a throw there. -/
theorem isSignificantlyOutdated_ok (op : OperatorStatus) :
    ∃ b, isSignificantlyOutdated op = .ok b := by
  unfold isSignificantlyOutdated
  split
  · exact ⟨false, rfl⟩
  · dsimp only
    split
    · exact ⟨false, rfl⟩
    · rename_i lastU hv
      push_neg at hv
      rcases svDiffE_ok_of_valid hv.1 hv.2 with ⟨r, hr⟩
      rw [hr, exceptOkBind]
      exact ⟨_, rfl⟩

/-- The balanced loop is total for every operator list. -/
theorem balancedSteps_ok (ops : List OperatorStatus) :
    ∃ l, balancedSteps ops = .ok l := by
  induction ops with
  | nil => exact ⟨[], rfl⟩
  | cons op rest ih =>
    unfold balancedSteps
    rcases ih with ⟨tl, htl⟩
    have hsh : ∃ b, (if !op.issues.isEmpty then pure true else isSignificantlyOutdated op :
        Except String Bool) = .ok b := by
      by_cases hi : (!op.issues.isEmpty) = true
      · rw [if_pos hi]; exact ⟨true, rfl⟩
      · rw [if_neg hi]; exact isSignificantlyOutdated_ok op
    rcases hsh with ⟨b, hb⟩
    rw [hb, exceptOkBind]
    have hhe : ∃ here, (if b && !op.availableUpgrades.isEmpty then
          match findBalancedUpgrade op with
          | some targetUpgrade => pure [balancedOperatorStep op targetUpgrade]
          | none => pure []
        else pure ([] : List UpgradeStep) : Except String (List UpgradeStep)) = .ok here := by
      by_cases hc : (b && !op.availableUpgrades.isEmpty) = true
      · rw [if_pos hc]
        cases findBalancedUpgrade op
        · exact ⟨[], rfl⟩
        · exact ⟨_, rfl⟩
      · rw [if_neg hc]; exact ⟨[], rfl⟩
    rcases hhe with ⟨here, hh⟩
    rw [hh, exceptOkBind, htl, exceptOkBind]
    exact ⟨_, rfl⟩

/-- The balanced strategy never surfaces a throw. -/
theorem generateBalancedPath_ok (ps : PlatformStatus) (now : Nat) :
    ∃ o, generateBalancedPath ps now = .ok o := by
  unfold generateBalancedPath
  rcases balancedSteps_ok ps.operators with ⟨l, hl⟩
  rw [hl, exceptOkBind]
  split <;> (dsimp only; split <;> exact ⟨_, rfl⟩)

/-- The version-ceiling block is total: the throwing comparison sits behind
its validity guards. -/
theorem versionCeilingIssues_ok (installation : OperatorInstallation)
    (lifecycleInfo : OperatorLifecycleInfo) (upd : List ClusterUpdate) (now : Nat) :
    ∃ l, versionCeilingIssues installation lifecycleInfo upd now = .ok l := by
  unfold versionCeilingIssues
  split
  · dsimp only
    split
    · split
      · rename_i hvv
        rcases svGtE_ok_of_valid hvv.1 hvv.2 with ⟨g, hg⟩
        rw [hg, exceptOkBind]
        split <;> exact ⟨_, rfl⟩
      · exact ⟨[], rfl⟩
    · exact ⟨[], rfl⟩
  · exact ⟨[], rfl⟩

/-- The issue detector is total on every input. -/
theorem detectUpgradeIssues_ok (installation : OperatorInstallation)
    (lifecycleInfo : OperatorLifecycleInfo) (currentChannel : OperatorChannel)
    (upd : List ClusterUpdate) (now : Nat) :
    ∃ l, detectUpgradeIssues installation lifecycleInfo currentChannel upd now = .ok l := by
  unfold detectUpgradeIssues
  rcases versionCeilingIssues_ok installation lifecycleInfo upd now with ⟨l4, h4⟩
  rw [h4, exceptOkBind]
  exact ⟨_, rfl⟩

/-- The critical-issues strategy produces a path exactly when some operator
carries a critical-severity issue. -/
theorem generateCriticalIssuePath_isSome (ps : PlatformStatus) (now : Nat) :
    (generateCriticalIssuePath ps now).isSome = true ↔
      ∃ op ∈ ps.operators, ∃ i ∈ op.issues, i.severity = IssueSeverity.critical := by
  unfold generateCriticalIssuePath
  dsimp only
  split
  · rename_i hc
    simp only [Option.isSome_none, Bool.false_eq_true, false_iff]
    rw [List.isEmpty_iff, List.filter_eq_nil_iff] at hc
    intro ⟨op, hop, i, hi, hsev⟩
    exact hc op hop (by simp [List.any_eq_true]; exact ⟨i, hi, hsev⟩)
  · rename_i hc
    simp only [Option.isSome_some, true_iff]
    rw [List.isEmpty_iff] at hc
    rcases List.exists_mem_of_ne_nil _ hc with ⟨op, hop⟩
    rcases List.mem_filter.mp hop with ⟨hmem, hany⟩
    rcases List.any_eq_true.mp hany with ⟨i, hi, hsev⟩
    exact ⟨op, hmem, i, hi, by simpa using hsev⟩

/-- Shape of a produced critical-issues path: a verification step, the steps
of the critical operators that have candidates, and a cluster step to the
first available update when one exists. -/
theorem generateCriticalIssuePath_structure (ps : PlatformStatus) (now : Nat) (p : UpgradePath)
    (h : generateCriticalIssuePath ps now = some p) :
    ∃ opSteps clusterSteps,
      opSteps = (ps.operators.filter
          (fun op => op.issues.any (fun i => i.severity == IssueSeverity.critical))).filterMap
          (fun op => (op.availableUpgrades.head?).map (criticalOperatorStep op)) ∧
      (∀ s ∈ clusterSteps, s.type = StepType.cluster ∧ s.target = "OpenShift Cluster" ∧
        s.toVersion = ps.cluster.availableUpdates.head?) ∧
      p.steps = numberFrom 1 (criticalVerificationStep :: opSteps ++ clusterSteps) ∧
      p.id = "critical-issues-path" := by
  unfold generateCriticalIssuePath at h
  dsimp only at h
  split at h
  · cases h
  · split at h
    · rename_i v hv
      cases h
      refine ⟨_, [criticalClusterStep ps v], rfl, ?_, rfl, rfl⟩
      intro s hs
      rcases List.mem_singleton.mp hs with rfl
      exact ⟨rfl, rfl, by rw [hv]; rfl⟩
    · cases h
      exact ⟨_, [], rfl, by intro s hs; simp at hs, rfl, rfl⟩

/-- Unfolding pure in the Except monad. -/
theorem exceptPure {α : Type} (a : α) : (pure a : Except String α) = .ok a := rfl

/-- Shape of a produced conservative path: a verification step and a
nonempty run of conservative operator steps, nothing else. -/
theorem generateConservativePath_structure (ps : PlatformStatus) (now : Nat) (p : UpgradePath)
    (h : generateConservativePath ps now = .ok (some p)) :
    ∃ opSteps,
      conservativeSteps (ps.operators.filter
        (fun op => op.issues.any (fun i => i.severity == IssueSeverity.warning))) = .ok opSteps ∧
      opSteps ≠ [] ∧
      p.steps = numberFrom 1 (basicVerificationStep :: opSteps) ∧
      p.id = "conservative-path" := by
  unfold generateConservativePath at h
  cases hcs : conservativeSteps (ps.operators.filter
      (fun op => op.issues.any (fun i => i.severity == IssueSeverity.warning))) with
  | error e => simp [hcs, exceptErrBind] at h
  | ok opSteps =>
    simp only [hcs, exceptOkBind] at h
    split at h
    · simp [exceptPure] at h
    · rename_i hlen
      simp only [exceptPure, Except.ok.injEq, Option.some.injEq] at h
      subst h
      refine ⟨opSteps, rfl, ?_, rfl, rfl⟩
      intro hnil
      apply hlen
      rw [hnil]
      rfl

/-- Shape of a produced aggressive path: a verification step, the aggressive
operator steps, and a cluster step to the last available update when one
exists; at least one non-verification step is present. -/
theorem generateAggressivePath_structure (ps : PlatformStatus) (now : Nat) (p : UpgradePath)
    (h : generateAggressivePath ps now = .ok (some p)) :
    ∃ opSteps clusterSteps,
      aggressiveSteps ps.operators = .ok opSteps ∧
      opSteps ++ clusterSteps ≠ [] ∧
      (∀ s ∈ clusterSteps, s.type = StepType.cluster ∧ s.target = "OpenShift Cluster" ∧
        s.toVersion = ps.cluster.availableUpdates.getLast?) ∧
      p.steps = numberFrom 1 (basicVerificationStep :: opSteps ++ clusterSteps) ∧
      p.id = "aggressive-path" := by
  unfold generateAggressivePath at h
  cases hcs : aggressiveSteps ps.operators with
  | error e => simp [hcs, exceptErrBind] at h
  | ok opSteps =>
    simp only [hcs, exceptOkBind] at h
    cases hgl : ps.cluster.availableUpdates.getLast? with
    | some v =>
      simp only [hgl] at h
      split at h
      · simp [exceptPure] at h
      · rename_i hlen
        simp only [exceptPure, Except.ok.injEq, Option.some.injEq] at h
        subst h
        refine ⟨opSteps, [aggressiveClusterStep ps v], rfl, by simp, ?_, rfl, rfl⟩
        intro s hs
        rcases List.mem_singleton.mp hs with rfl
        exact ⟨rfl, rfl, rfl⟩
    | none =>
      simp only [hgl] at h
      split at h
      · simp [exceptPure] at h
      · rename_i hlen
        simp only [exceptPure, Except.ok.injEq, Option.some.injEq] at h
        subst h
        refine ⟨opSteps, [], rfl, ?_, by intro s hs; simp at hs, rfl, rfl⟩
        intro hnil
        apply hlen
        rw [List.append_nil] at hnil
        subst hnil
        rfl

/-- Shape of a produced balanced path: a verification step, the balanced
operator steps, and a cluster step to the first available update when one
exists; at least one non-verification step is present. -/
theorem generateBalancedPath_structure (ps : PlatformStatus) (now : Nat) (p : UpgradePath)
    (h : generateBalancedPath ps now = .ok (some p)) :
    ∃ opSteps clusterSteps,
      balancedSteps ps.operators = .ok opSteps ∧
      opSteps ++ clusterSteps ≠ [] ∧
      (∀ s ∈ clusterSteps, s.type = StepType.cluster ∧ s.target = "OpenShift Cluster" ∧
        s.toVersion = ps.cluster.availableUpdates.head?) ∧
      p.steps = numberFrom 1 (basicVerificationStep :: opSteps ++ clusterSteps) ∧
      p.id = "balanced-path" := by
  unfold generateBalancedPath at h
  cases hcs : balancedSteps ps.operators with
  | error e => simp [hcs, exceptErrBind] at h
  | ok opSteps =>
    simp only [hcs, exceptOkBind] at h
    cases hgl : ps.cluster.availableUpdates.head? with
    | some v =>
      simp only [hgl] at h
      split at h
      · simp [exceptPure] at h
      · rename_i hlen
        simp only [exceptPure, Except.ok.injEq, Option.some.injEq] at h
        subst h
        refine ⟨opSteps, [balancedClusterStep ps v], rfl, by simp, ?_, rfl, rfl⟩
        intro s hs
        rcases List.mem_singleton.mp hs with rfl
        exact ⟨rfl, rfl, rfl⟩
    | none =>
      simp only [hgl] at h
      split at h
      · simp [exceptPure] at h
      · rename_i hlen
        simp only [exceptPure, Except.ok.injEq, Option.some.injEq] at h
        subst h
        refine ⟨opSteps, [], rfl, ?_, by intro s hs; simp at hs, rfl, rfl⟩
        intro hnil
        apply hlen
        rw [List.append_nil] at hnil
        subst hnil
        rfl

/-- Invariant of the conservative reduce: its result is either the seed (the
first candidate) or some candidate it switched to, and every switch is
guarded by a patch or minor magnitude against the current version. -/
theorem conservativeFold_result (cv : String) :
    ∀ (rest : List AvailableUpgrade) (closest res : AvailableUpgrade),
      conservativeFold cv closest rest = .ok res →
      res = closest ∨ ∃ d, svDiffE cv (cleanVersion res.targetVersion) = .ok (some d) ∧
        (d = DiffResult.patch ∨ d = DiffResult.minor) := by
  intro rest
  induction rest with
  | nil =>
    intro closest res h
    unfold conservativeFold at h
    cases h
    exact Or.inl rfl
  | cons current rest' ih =>
    intro closest res h
    unfold conservativeFold at h
    cases hd : svDiffE cv (cleanVersion current.targetVersion) with
    | error e => simp only [hd, exceptErrBind] at h; cases h
    | ok d =>
      simp only [hd, exceptOkBind] at h
      by_cases hp : d = some DiffResult.patch
      · rw [if_pos hp] at h
        rcases ih current res h with h1 | h2
        · subst h1
          exact Or.inr ⟨DiffResult.patch, by rw [← hp]; exact hd, Or.inl rfl⟩
        · exact Or.inr h2
      · rw [if_neg hp] at h
        by_cases hm : d = some DiffResult.minor
        · rw [if_pos hm] at h
          cases hlt : svLtE (cleanVersion current.targetVersion) (cleanVersion closest.targetVersion) with
          | error e => rw [hlt, exceptErrBind] at h; cases h
          | ok b =>
            rw [hlt, exceptOkBind] at h
            by_cases hb : b = true
            · rw [if_pos hb] at h
              rcases ih current res h with h1 | h2
              · subst h1
                exact Or.inr ⟨DiffResult.minor, by rw [← hm]; exact hd, Or.inr rfl⟩
              · exact Or.inr h2
            · rw [if_neg hb] at h
              rcases ih closest res h with h1 | h2
              · exact Or.inl h1
              · exact Or.inr h2
        · rw [if_neg hm] at h
          rcases ih closest res h with h1 | h2
          · exact Or.inl h1
          · exact Or.inr h2

/-- The path list is exactly the four strategies' contributions in their
fixed order, with the first strategy error aborting the generation. -/
theorem generateUpgradePaths_eq (ps : PlatformStatus) (now : Nat) :
    generateUpgradePaths ps now =
      generateConservativePath ps now >>= fun c =>
      generateAggressivePath ps now >>= fun a =>
      generateBalancedPath ps now >>= fun b =>
      pure ((generateCriticalIssuePath ps now).toList ++ c.toList ++ a.toList ++ b.toList) := by
  unfold generateUpgradePaths
  rcases generateCriticalIssuePath ps now with _ | p1 <;>
  rcases generateConservativePath ps now with e2 | (_ | p2) <;>
  rcases generateAggressivePath ps now with e3 | (_ | p3) <;>
  rcases generateBalancedPath ps now with e4 | (_ | p4) <;>
  rfl

/-- Every produced path comes from one of the four strategies. -/
theorem generateUpgradePaths_mem (ps : PlatformStatus) (now : Nat) (l : List UpgradePath)
    (h : generateUpgradePaths ps now = .ok l) (p : UpgradePath) (hp : p ∈ l) :
    generateCriticalIssuePath ps now = some p ∨ generateConservativePath ps now = .ok (some p) ∨
    generateAggressivePath ps now = .ok (some p) ∨ generateBalancedPath ps now = .ok (some p) := by
  rw [generateUpgradePaths_eq] at h
  cases hc : generateConservativePath ps now with
  | error e => rw [hc, exceptErrBind] at h; cases h
  | ok c =>
    rw [hc, exceptOkBind] at h
    cases ha : generateAggressivePath ps now with
    | error e => rw [ha, exceptErrBind] at h; cases h
    | ok a =>
      rw [ha, exceptOkBind] at h
      cases hb : generateBalancedPath ps now with
      | error e => rw [hb, exceptErrBind] at h; cases h
      | ok b =>
        rw [hb, exceptOkBind] at h
        cases h
        rcases List.mem_append.mp hp with h1 | h4
        · rcases List.mem_append.mp h1 with h2 | h3
          · rcases List.mem_append.mp h2 with h5 | h6
            · left
              cases hcrit : generateCriticalIssuePath ps now <;> rw [hcrit] at h5 <;> simp at h5
              rw [h5]
            · right; left
              cases c <;> simp at h6
              rw [h6]
          · right; right; left
            cases a <;> simp at h3
            rw [h3]
        · right; right; right
          cases b <;> simp at h4
          rw [h4]

/-! ## Time dependence of the generated values -/

theorem exceptMapOk {α β : Type} (f : α → β) (a : α) :
    Except.map f (.ok a : Except String α) = .ok (f a) := rfl

theorem exceptMapErr {α β : Type} (f : α → β) (e : String) :
    Except.map f (.error e : Except String α) = .error e := rfl

theorem generateCriticalIssuePath_retime (ps : PlatformStatus) (t : Nat) :
    generateCriticalIssuePath ps t = Option.map (retimePath t) (generateCriticalIssuePath ps 0) := by
  by_cases hc : (ps.operators.filter
      (fun op => op.issues.any (fun i => i.severity == IssueSeverity.critical))).isEmpty = true
  · simp only [generateCriticalIssuePath, if_pos hc]
    rfl
  · simp only [generateCriticalIssuePath, if_neg hc]
    rfl

theorem generateConservativePath_retime (ps : PlatformStatus) (t : Nat) :
    generateConservativePath ps t =
      Except.map (Option.map (retimePath t)) (generateConservativePath ps 0) := by
  unfold generateConservativePath
  cases hcs : conservativeSteps (ps.operators.filter
      (fun op => op.issues.any (fun i => i.severity == IssueSeverity.warning))) with
  | error e => simp only [hcs, exceptErrBind, exceptMapErr]
  | ok opSteps =>
    simp only [hcs, exceptOkBind]
    split <;> rfl

theorem generateAggressivePath_retime (ps : PlatformStatus) (t : Nat) :
    generateAggressivePath ps t =
      Except.map (Option.map (retimePath t)) (generateAggressivePath ps 0) := by
  unfold generateAggressivePath
  cases hcs : aggressiveSteps ps.operators with
  | error e => simp only [hcs, exceptErrBind, exceptMapErr]
  | ok opSteps =>
    simp only [hcs, exceptOkBind]
    split <;> rfl

theorem generateBalancedPath_retime (ps : PlatformStatus) (t : Nat) :
    generateBalancedPath ps t =
      Except.map (Option.map (retimePath t)) (generateBalancedPath ps 0) := by
  unfold generateBalancedPath
  cases hcs : balancedSteps ps.operators with
  | error e => simp only [hcs, exceptErrBind, exceptMapErr]
  | ok opSteps =>
    simp only [hcs, exceptOkBind]
    split <;> rfl

theorem generateUpgradePaths_retime (ps : PlatformStatus) (t : Nat) :
    generateUpgradePaths ps t =
      Except.map (List.map (retimePath t)) (generateUpgradePaths ps 0) := by
  rw [generateUpgradePaths_eq ps t, generateUpgradePaths_eq ps 0,
    generateCriticalIssuePath_retime ps t, generateConservativePath_retime ps t,
    generateAggressivePath_retime ps t, generateBalancedPath_retime ps t]
  rcases generateCriticalIssuePath ps 0 with _ | p1 <;>
  rcases generateConservativePath ps 0 with e2 | (_ | p2) <;>
  rcases generateAggressivePath ps 0 with e3 | (_ | p3) <;>
  rcases generateBalancedPath ps 0 with e4 | (_ | p4) <;>
  rfl

theorem versionCeilingIssues_retime (installation : OperatorInstallation)
    (li : OperatorLifecycleInfo) (upd : List ClusterUpdate) (t : Nat) :
    versionCeilingIssues installation li upd t =
      Except.map (List.map (retimeIssue t)) (versionCeilingIssues installation li upd 0) := by
  unfold versionCeilingIssues
  split
  · dsimp only
    split
    · split
      · rename_i hvv
        cases hg : svGtE (extractVersionFromUpdate _) _ with
        | error e => rw [exceptErrBind, exceptErrBind, exceptMapErr]
        | ok g =>
          rw [exceptOkBind, exceptOkBind]
          split <;> rfl
      · rfl
    · rfl
  · rfl

theorem detectUpgradeIssues_retime (installation : OperatorInstallation)
    (li : OperatorLifecycleInfo) (ch : OperatorChannel) (upd : List ClusterUpdate) (t : Nat) :
    detectUpgradeIssues installation li ch upd t =
      Except.map (List.map (retimeIssue t)) (detectUpgradeIssues installation li ch upd 0) := by
  unfold detectUpgradeIssues
  rw [versionCeilingIssues_retime installation li upd t]
  cases hvc : versionCeilingIssues installation li upd 0 with
  | error e => simp only [hvc, exceptMapErr, exceptErrBind]
  | ok l4 =>
    simp only [hvc, exceptMapOk, exceptOkBind, exceptPure, exceptMapOk]
    split <;> split <;> split <;>
      simp [retimeIssue, staleChannelIssue, maintenanceIssue, eolIssue]

/-- A version-ceiling issue is only emitted with a nonempty maxOCPVersion
bound, a next available update, validity of both version strings, and a
positive greater-than comparison; the issue is the ceiling literal for that
pair. -/
theorem versionCeilingIssues_mem (installation : OperatorInstallation)
    (li : OperatorLifecycleInfo) (upd : List ClusterUpdate) (now : Nat)
    (l : List UpgradeIssue) (h : versionCeilingIssues installation li upd now = .ok l)
    (i : UpgradeIssue) (hi : i ∈ l) :
    ∃ maxV nextUpdate, li.maxOCPVersion = some maxV ∧ maxV ≠ "" ∧
      upd.head? = some nextUpdate ∧
      svValid (extractVersionFromUpdate nextUpdate) = true ∧ svValid maxV = true ∧
      svGtE (extractVersionFromUpdate nextUpdate) maxV = .ok true ∧
      i = versionCeilingIssue installation (extractVersionFromUpdate nextUpdate) maxV now := by
  unfold versionCeilingIssues at h
  split at h
  · rename_i maxV nextUpdate hmx hup
    split at h
    · rename_i hne
      dsimp only at h
      split at h
      · rename_i hvv
        cases hg : svGtE (extractVersionFromUpdate nextUpdate) maxV with
        | error e => rw [hg, exceptErrBind] at h; cases h
        | ok g =>
          rw [hg, exceptOkBind] at h
          split at h
          · rename_i hgt
            cases h
            rcases List.mem_singleton.mp hi with rfl
            exact ⟨maxV, nextUpdate, hmx, hne, hup, hvv.1, hvv.2, by rw [hg, hgt], rfl⟩
          · cases h
            simp at hi
      · cases h
        simp at hi
    · cases h
      simp at hi
  · cases h
    simp at hi

/-- Every detected issue is one of the four issue literals, each emitted
only under its own condition. -/
theorem detectUpgradeIssues_mem (installation : OperatorInstallation)
    (li : OperatorLifecycleInfo) (ch : OperatorChannel) (upd : List ClusterUpdate) (now : Nat)
    (l : List UpgradeIssue) (h : detectUpgradeIssues installation li ch upd now = .ok l)
    (i : UpgradeIssue) (hi : i ∈ l) :
    (ch.deprecated = true ∧ i = staleChannelIssue installation ch now) ∨
    (li.supportPhase = SupportPhase.maintenanceSupport ∧ i = maintenanceIssue installation now) ∨
    (li.supportPhase = SupportPhase.endOfLife ∧ i = eolIssue installation now) ∨
    (∃ l4, versionCeilingIssues installation li upd now = .ok l4 ∧ i ∈ l4) := by
  unfold detectUpgradeIssues at h
  cases hvc : versionCeilingIssues installation li upd now with
  | error e => simp only [hvc, exceptErrBind] at h; cases h
  | ok l4 =>
    simp only [hvc, exceptOkBind, exceptPure] at h
    cases h
    rcases List.mem_append.mp hi with h123 | h4
    · rcases List.mem_append.mp h123 with h12 | h3
      · rcases List.mem_append.mp h12 with h1 | h2
        · left
          by_cases hd : ch.deprecated = true
          · rw [if_pos hd] at h1
            exact ⟨hd, List.mem_singleton.mp h1⟩
          · rw [if_neg hd] at h1
            simp at h1
        · right; left
          by_cases hm : (li.supportPhase == SupportPhase.maintenanceSupport) = true
          · rw [if_pos hm] at h2
            exact ⟨by simpa using hm, List.mem_singleton.mp h2⟩
          · rw [if_neg hm] at h2
            simp at h2
      · right; right; left
        by_cases he : (li.supportPhase == SupportPhase.endOfLife) = true
        · rw [if_pos he] at h3
          exact ⟨by simpa using he, List.mem_singleton.mp h3⟩
        · rw [if_neg he] at h3
          simp at h3
    · exact Or.inr (Or.inr (Or.inr ⟨l4, rfl, h4⟩))

/-! ## The claims -/

/-- C9: calculateTotalDuration is monotonic — appending a step adds that
upper-bound minute contribution of that step, so the total never decreases. -/
theorem c9_theorem (steps : List UpgradeStep) (s : UpgradeStep) :
    totalMinutes (steps ++ [s]) = totalMinutes steps + stepMinutes s ∧
    totalMinutes steps ≤ totalMinutes (steps ++ [s]) := by
  have h : totalMinutes (steps ++ [s]) = totalMinutes steps + stepMinutes s := by
    unfold totalMinutes
    rw [List.foldl_append]
    rfl
  exact ⟨h, by rw [h]; exact Nat.le_add_right _ _⟩

/-- C10: the computed health status is critical exactly when a critical
issue exists, else warning exactly when a warning issue exists, else
healthy. This is the healthStatus the lifecycle service stores on every
operator status it builds. -/
theorem c10_theorem (issues : List UpgradeIssue) :
    (calculateHealthStatus issues = HealthStatus.critical ↔
      ∃ i ∈ issues, i.severity = IssueSeverity.critical) ∧
    (calculateHealthStatus issues = HealthStatus.warning ↔
      (¬ ∃ i ∈ issues, i.severity = IssueSeverity.critical) ∧
      ∃ i ∈ issues, i.severity = IssueSeverity.warning) ∧
    (calculateHealthStatus issues = HealthStatus.healthy ↔
      (¬ ∃ i ∈ issues, i.severity = IssueSeverity.critical) ∧
      ¬ ∃ i ∈ issues, i.severity = IssueSeverity.warning) := by
  have crit_iff : issues.any (fun i => i.severity == IssueSeverity.critical) = true ↔
      ∃ i ∈ issues, i.severity = IssueSeverity.critical := by
    simp [List.any_eq_true]
  have warn_iff : issues.any (fun i => i.severity == IssueSeverity.warning) = true ↔
      ∃ i ∈ issues, i.severity = IssueSeverity.warning := by
    simp [List.any_eq_true]
  unfold calculateHealthStatus
  by_cases h1 : issues.any (fun i => i.severity == IssueSeverity.critical) = true
  · rw [if_pos h1]
    refine ⟨iff_of_true rfl (crit_iff.mp h1), ?_, ?_⟩
    · exact iff_of_false (by simp) (fun h => h.1 (crit_iff.mp h1))
    · exact iff_of_false (by simp) (fun h => h.1 (crit_iff.mp h1))
  · rw [if_neg h1]
    have hnc : ¬ ∃ i ∈ issues, i.severity = IssueSeverity.critical :=
      fun h => h1 (crit_iff.mpr h)
    by_cases h2 : issues.any (fun i => i.severity == IssueSeverity.warning) = true
    · rw [if_pos h2]
      refine ⟨iff_of_false (by simp) hnc, iff_of_true rfl ⟨hnc, warn_iff.mp h2⟩, ?_⟩
      exact iff_of_false (by simp) (fun h => h.2 (warn_iff.mp h2))
    · rw [if_neg h2]
      have hnw : ¬ ∃ i ∈ issues, i.severity = IssueSeverity.warning :=
        fun h => h2 (warn_iff.mpr h)
      exact ⟨iff_of_false (by simp) hnc,
        iff_of_false (by simp) (fun h => hnw h.2),
        iff_of_true rfl ⟨hnc, hnw⟩⟩

/-- C3 counterexample: a snapshot whose only operator carries two candidates
with unnormalizable target versions makes path generation surface the thrown
Invalid Version error — it does not degrade to a skipped check. -/
theorem c3_counterexample :
    generateUpgradePaths c3cexPS 0 = .error "Invalid Version: also-bad" := by decide

/-- C3 amended: issue detection (the version-ceiling comparison included)
never surfaces a throw, and neither does the balanced strategy, whose diff
sits behind validity guards; the critical strategy is throw-free by
construction. The aggressive and conservative strategies, whose unguarded
comparisons the counterexample exercises, are exempted. -/
theorem c3_amended :
    (∀ installation li ch upd now,
      ∃ l, detectUpgradeIssues installation li ch upd now = .ok l) ∧
    (∀ installation li upd now, ∃ l, versionCeilingIssues installation li upd now = .ok l) ∧
    (∀ ps now, ∃ o, generateBalancedPath ps now = .ok o) :=
  ⟨fun installation li ch upd now => detectUpgradeIssues_ok installation li ch upd now,
   fun installation li upd now => versionCeilingIssues_ok installation li upd now,
   fun ps now => generateBalancedPath_ok ps now⟩

/-- C4: a cluster-upgrade step of the aggressive path targets the last
element of availableUpdates; a cluster-upgrade step of the critical-issues
or balanced path targets the first element. -/
theorem c4_theorem (ps : PlatformStatus) (now : Nat) (p : UpgradePath) (s : UpgradeStep) :
    (generateAggressivePath ps now = .ok (some p) → s ∈ p.steps →
      s.type = StepType.cluster → s.toVersion = ps.cluster.availableUpdates.getLast?) ∧
    (generateCriticalIssuePath ps now = some p → s ∈ p.steps →
      s.type = StepType.cluster → s.toVersion = ps.cluster.availableUpdates.head?) ∧
    (generateBalancedPath ps now = .ok (some p) → s ∈ p.steps →
      s.type = StepType.cluster → s.toVersion = ps.cluster.availableUpdates.head?) := by
  refine ⟨?_, ?_, ?_⟩
  · intro h hs hty
    rcases generateAggressivePath_structure ps now p h with
      ⟨opSteps, clusterSteps, hops, _, hcl, hsteps, _⟩
    rw [hsteps] at hs
    rcases numberFrom_mem _ _ s hs with ⟨s', hs', hty', _, _, htv', _⟩
    rcases List.mem_cons.mp hs' with rfl | hs''
    · rw [hty'] at hty; cases hty
    · rcases List.mem_append.mp hs'' with hop | hclm
      · rcases aggressiveSteps_mem _ _ hops s' hop with ⟨op, _, u0, us, u, _, _, rfl⟩
        rw [hty'] at hty; cases hty
      · rw [htv', (hcl s' hclm).2.2]
  · intro h hs hty
    rcases generateCriticalIssuePath_structure ps now p h with
      ⟨opSteps, clusterSteps, hops, hcl, hsteps, _⟩
    rw [hsteps] at hs
    rcases numberFrom_mem _ _ s hs with ⟨s', hs', hty', _, _, htv', _⟩
    rcases List.mem_cons.mp hs' with rfl | hs''
    · rw [hty'] at hty; cases hty
    · rcases List.mem_append.mp hs'' with hop | hclm
      · rw [hops] at hop
        rcases List.mem_filterMap.mp hop with ⟨op, _, hmap⟩
        rcases Option.map_eq_some'.mp hmap with ⟨u, _, rfl⟩
        rw [hty'] at hty; cases hty
      · rw [htv', (hcl s' hclm).2.2]
  · intro h hs hty
    rcases generateBalancedPath_structure ps now p h with
      ⟨opSteps, clusterSteps, hops, _, hcl, hsteps, _⟩
    rw [hsteps] at hs
    rcases numberFrom_mem _ _ s hs with ⟨s', hs', hty', _, _, htv', _⟩
    rcases List.mem_cons.mp hs' with rfl | hs''
    · rw [hty'] at hty; cases hty
    · rcases List.mem_append.mp hs'' with hop | hclm
      · rcases balancedSteps_mem _ _ hops s' hop with ⟨op, _, u, _, _, rfl⟩
        rw [hty'] at hty; cases hty
      · rw [htv', (hcl s' hclm).2.2]

/-- C4 witness: on the witness snapshot all three paths exist and carry a
cluster step; the aggressive one targets 4.16.5 (the last update), the
critical and balanced ones target 4.16.1 (the first). -/
theorem c4_witness :
    (clusterStepOf c4wPAgg).toVersion = c4wPS.cluster.availableUpdates.getLast? ∧
    (clusterStepOf c4wPCrit).toVersion = c4wPS.cluster.availableUpdates.head? ∧
    (clusterStepOf c4wPBal).toVersion = c4wPS.cluster.availableUpdates.head? :=
  ⟨(c4_theorem c4wPS 0 c4wPAgg (clusterStepOf c4wPAgg)).1
      (by decide) (by decide) (by decide),
   (c4_theorem c4wPS 0 c4wPCrit (clusterStepOf c4wPCrit)).2.1
      (by decide) (by decide) (by decide),
   (c4_theorem c4wPS 0 c4wPBal (clusterStepOf c4wPBal)).2.2
      (by decide) (by decide) (by decide)⟩

/-- The step numbered 2 is in the numbered list whenever the unnumbered list
has a second element. -/
theorem numberFrom_second_mem (v x : UpgradeStep) (xs : List UpgradeStep) :
    { x with order := 2 } ∈ numberFrom 1 (v :: x :: xs) := by
  rw [numberFrom_cons, numberFrom_cons]
  exact List.mem_cons_of_mem _ (List.mem_cons_self _ _)

/-- C8: no generated path of any strategy contains an operator-upgrade step
for a component with an empty availableUpgrades list — every operator step
names an operator that has at least one candidate — and the stale-channel
issue is still detected for such a component whenever its channel is
deprecated. -/
theorem c8_theorem :
    (∀ ps now l, generateUpgradePaths ps now = .ok l → ∀ p ∈ l, ∀ s ∈ p.steps,
      s.type = StepType.operator →
      ∃ op ∈ ps.operators, s.target = op.installation.name ∧ op.availableUpgrades ≠ []) ∧
    (∀ installation li ch upd now l,
      detectUpgradeIssues installation li ch upd now = .ok l → ch.deprecated = true →
      ∃ i ∈ l, i.type = IssueType.staleChannel ∧ i.severity = IssueSeverity.warning) := by
  constructor
  · intro ps now l h p hp s hs hty
    rcases generateUpgradePaths_mem ps now l h p hp with hc | hc | hc | hc
    · rcases generateCriticalIssuePath_structure ps now p hc with
        ⟨opSteps, clusterSteps, hops, hcl, hsteps, _⟩
      rw [hsteps] at hs
      rcases numberFrom_mem _ _ s hs with ⟨s', hs', hty', htg', _, _, _⟩
      rcases List.mem_cons.mp hs' with rfl | hs''
      · rw [hty'] at hty; cases hty
      · rcases List.mem_append.mp hs'' with hop | hclm
        · rw [hops] at hop
          rcases List.mem_filterMap.mp hop with ⟨op, hopmem, hmap⟩
          rcases Option.map_eq_some'.mp hmap with ⟨u, hu, rfl⟩
          refine ⟨op, (List.mem_filter.mp hopmem).1, by rw [htg']; rfl, ?_⟩
          intro hnil
          rw [hnil] at hu
          cases hu
        · rw [hty', (hcl s' hclm).1] at hty; cases hty
    · rcases generateConservativePath_structure ps now p hc with
        ⟨opSteps, hops, _, hsteps, _⟩
      rw [hsteps] at hs
      rcases numberFrom_mem _ _ s hs with ⟨s', hs', hty', htg', _, _, _⟩
      rcases List.mem_cons.mp hs' with rfl | hs''
      · rw [hty'] at hty; cases hty
      · rcases conservativeSteps_mem _ _ hops s' hs'' with ⟨op, hopmem, u, hu, rfl⟩
        exact ⟨op, (List.mem_filter.mp hopmem).1, by rw [htg']; rfl,
          findConservativeUpgrade_some_nonempty hu⟩
    · rcases generateAggressivePath_structure ps now p hc with
        ⟨opSteps, clusterSteps, hops, _, hcl, hsteps, _⟩
      rw [hsteps] at hs
      rcases numberFrom_mem _ _ s hs with ⟨s', hs', hty', htg', _, _, _⟩
      rcases List.mem_cons.mp hs' with rfl | hs''
      · rw [hty'] at hty; cases hty
      · rcases List.mem_append.mp hs'' with hop | hclm
        · rcases aggressiveSteps_mem _ _ hops s' hop with ⟨op, hopmem, u0, us, u, hav, _, rfl⟩
          refine ⟨op, hopmem, by rw [htg']; rfl, ?_⟩
          rw [hav]
          exact List.cons_ne_nil u0 us
        · rw [hty', (hcl s' hclm).1] at hty; cases hty
    · rcases generateBalancedPath_structure ps now p hc with
        ⟨opSteps, clusterSteps, hops, _, hcl, hsteps, _⟩
      rw [hsteps] at hs
      rcases numberFrom_mem _ _ s hs with ⟨s', hs', hty', htg', _, _, _⟩
      rcases List.mem_cons.mp hs' with rfl | hs''
      · rw [hty'] at hty; cases hty
      · rcases List.mem_append.mp hs'' with hop | hclm
        · rcases balancedSteps_mem _ _ hops s' hop with ⟨op, hopmem, u, hne, _, rfl⟩
          exact ⟨op, hopmem, by rw [htg']; rfl, hne⟩
        · rw [hty', (hcl s' hclm).1] at hty; cases hty
  · intro installation li ch upd now l h hd
    unfold detectUpgradeIssues at h
    cases hvc : versionCeilingIssues installation li upd now with
    | error e => simp only [hvc, exceptErrBind] at h; cases h
    | ok l4 =>
      simp only [hvc, exceptOkBind, exceptPure] at h
      cases h
      refine ⟨staleChannelIssue installation ch now, ?_, rfl, rfl⟩
      rw [if_pos hd]
      exact List.mem_append_left _ (List.mem_append_left _ (List.mem_append_left _
        (List.mem_singleton_self _)))

/-- C1 counterexample: with one critical-issue operator that has no
candidates and no platform updates, the critical-issues strategy returns a
path whose only step is the verification step — the claimed suppression of
verification-only paths does not happen there. -/
theorem c1_counterexample :
    (generateCriticalIssuePath c1cexPS 0).map (fun p => p.steps.map (fun s => s.type)) =
      some [StepType.verification] := by decide

/-- C1 amended: the conservative, aggressive and balanced strategies indeed
return no path when they add zero non-verification steps — a produced path
always holds a non-verification step — while the critical-issues strategy
returns a path exactly when some operator has a critical issue, regardless
of whether any non-verification step was added. -/
theorem c1_amended (ps : PlatformStatus) (now : Nat) :
    (∀ p, generateConservativePath ps now = .ok (some p) →
      ∃ s ∈ p.steps, s.type ≠ StepType.verification) ∧
    (∀ p, generateAggressivePath ps now = .ok (some p) →
      ∃ s ∈ p.steps, s.type ≠ StepType.verification) ∧
    (∀ p, generateBalancedPath ps now = .ok (some p) →
      ∃ s ∈ p.steps, s.type ≠ StepType.verification) ∧
    ((generateCriticalIssuePath ps now).isSome = true ↔
      ∃ op ∈ ps.operators, ∃ i ∈ op.issues, i.severity = IssueSeverity.critical) := by
  refine ⟨?_, ?_, ?_, generateCriticalIssuePath_isSome ps now⟩
  · intro p h
    rcases generateConservativePath_structure ps now p h with ⟨opSteps, hops, hne, hsteps, _⟩
    cases hx : opSteps with
    | nil => exact absurd hx hne
    | cons x xs =>
      refine ⟨{ x with order := 2 }, by rw [hsteps, hx]; exact numberFrom_second_mem _ _ _, ?_⟩
      have hxmem : x ∈ opSteps := by rw [hx]; exact List.mem_cons_self _ _
      rcases conservativeSteps_mem _ _ hops x hxmem with ⟨op, _, u, _, rfl⟩
      simp [conservativeOperatorStep]
  · intro p h
    rcases generateAggressivePath_structure ps now p h with
      ⟨opSteps, clusterSteps, hops, hne, hcl, hsteps, _⟩
    cases hx : opSteps with
    | nil =>
      cases hy : clusterSteps with
      | nil => rw [hx, hy] at hne; exact absurd rfl hne
      | cons y ys =>
        have hsteps2 : p.steps = numberFrom 1 (basicVerificationStep :: y :: ys) := by
          rw [hsteps, hx, hy]; rfl
        refine ⟨{ y with order := 2 }, by rw [hsteps2]; exact numberFrom_second_mem _ _ _, ?_⟩
        have hymem : y ∈ clusterSteps := by rw [hy]; exact List.mem_cons_self _ _
        have := (hcl y hymem).1
        simp only [UpgradeStep.type] at this ⊢
        rw [this]
        simp
    | cons x xs =>
      have hsteps2 : p.steps = numberFrom 1 (basicVerificationStep :: x :: (xs ++ clusterSteps)) := by
        rw [hsteps, hx]; rfl
      refine ⟨{ x with order := 2 }, by rw [hsteps2]; exact numberFrom_second_mem _ _ _, ?_⟩
      have hxmem : x ∈ opSteps := by rw [hx]; exact List.mem_cons_self _ _
      rcases aggressiveSteps_mem _ _ hops x hxmem with ⟨op, _, u0, us, u, _, _, rfl⟩
      simp [aggressiveOperatorStep]
  · intro p h
    rcases generateBalancedPath_structure ps now p h with
      ⟨opSteps, clusterSteps, hops, hne, hcl, hsteps, _⟩
    cases hx : opSteps with
    | nil =>
      cases hy : clusterSteps with
      | nil => rw [hx, hy] at hne; exact absurd rfl hne
      | cons y ys =>
        have hsteps2 : p.steps = numberFrom 1 (basicVerificationStep :: y :: ys) := by
          rw [hsteps, hx, hy]; rfl
        refine ⟨{ y with order := 2 }, by rw [hsteps2]; exact numberFrom_second_mem _ _ _, ?_⟩
        have hymem : y ∈ clusterSteps := by rw [hy]; exact List.mem_cons_self _ _
        have := (hcl y hymem).1
        simp only [UpgradeStep.type] at this ⊢
        rw [this]
        simp
    | cons x xs =>
      have hsteps2 : p.steps = numberFrom 1 (basicVerificationStep :: x :: (xs ++ clusterSteps)) := by
        rw [hsteps, hx]; rfl
      refine ⟨{ x with order := 2 }, by rw [hsteps2]; exact numberFrom_second_mem _ _ _, ?_⟩
      have hxmem : x ∈ opSteps := by rw [hx]; exact List.mem_cons_self _ _
      rcases balancedSteps_mem _ _ hops x hxmem with ⟨op, _, u, _, _, rfl⟩
      simp [balancedOperatorStep]

/-- C1 witness: on the witness snapshot the three guarded strategies all
produce a path with a non-verification step, and the critical-issues
strategy produces one because a critical issue exists. -/
theorem c1_witness :
    (∃ s ∈ c4wPCons.steps, s.type ≠ StepType.verification) ∧
    (∃ s ∈ c4wPAgg.steps, s.type ≠ StepType.verification) ∧
    (∃ s ∈ c4wPBal.steps, s.type ≠ StepType.verification) ∧
    (generateCriticalIssuePath c4wPS 0).isSome = true :=
  ⟨(c1_amended c4wPS 0).1 c4wPCons (by decide),
   (c1_amended c4wPS 0).2.1 c4wPAgg (by decide),
   (c1_amended c4wPS 0).2.2.1 c4wPBal (by decide),
   ((c1_amended c4wPS 0).2.2.2).mpr (by decide)⟩

/-- C2 counterexample: a warning operator at 1.0.0 whose only candidate is
2.0.0 — a major-magnitude jump — still gets that candidate emitted as the
conservative upgrade step. -/
theorem c2_counterexample :
    (generateConservativePath c2cexPS 0).map (Option.map
        (fun p => p.steps.map (fun s => (s.type, s.fromVersion, s.toVersion)))) =
      .ok (some [(StepType.verification, none, none),
        (StepType.operator, some "1.0.0", some "2.0.0")]) ∧
    svDiffE (cleanVersion "1.0.0") (cleanVersion "2.0.0") = .ok (some DiffResult.major) :=
  ⟨by decide, by decide⟩

/-- C2 amended: when the current version parses, a major-magnitude selection
can only be the untouched seed of the reduce — the first listed candidate; every
candidate the fold switches to has patch or minor magnitude. (When the
current version does not parse, the first candidate is returned outright,
whatever its magnitude.) -/
theorem c2_amended (op : OperatorStatus) (u : AvailableUpgrade)
    (h : findConservativeUpgrade op = .ok (some u))
    (hp : (svParse (cleanVersion op.installation.currentVersion)).isSome = true)
    (hmaj : svDiffE (cleanVersion op.installation.currentVersion) (cleanVersion u.targetVersion)
      = .ok (some DiffResult.major)) :
    op.availableUpgrades.head? = some u := by
  unfold findConservativeUpgrade at h
  split at h
  · cases h
  · rename_i u0 rest heq
    rw [heq]
    cases hpp : svParse (cleanVersion op.installation.currentVersion) with
    | none => simp [hpp] at hp
    | some v =>
      simp only [hpp] at h
      cases hcf : conservativeFold (cleanVersion op.installation.currentVersion) u0 rest with
      | error e => rw [hcf, exceptMapErr] at h; cases h
      | ok r =>
        rw [hcf, exceptMapOk] at h
        have hru : r = u := by
          have := h
          simp only [Except.ok.injEq, Option.some.injEq] at this
          exact this
        subst hru
        rcases conservativeFold_result _ rest u0 r hcf with h1 | ⟨d, hd, hdm⟩
        · rw [h1]
          rfl
        · rw [hmaj] at hd
          simp only [Except.ok.injEq, Option.some.injEq] at hd
          rcases hdm with rfl | rfl <;> cases hd

/-- C2 witness: a single major-magnitude candidate is selected and is
(necessarily) the first listed candidate. -/
theorem c2_witness :
    findConservativeUpgrade c2wOp = .ok (some (fxUpgrade "3.0.0")) ∧
    (svParse (cleanVersion c2wOp.installation.currentVersion)).isSome = true ∧
    svDiffE (cleanVersion c2wOp.installation.currentVersion)
      (cleanVersion (fxUpgrade "3.0.0").targetVersion) = .ok (some DiffResult.major) ∧
    c2wOp.availableUpgrades.head? = some (fxUpgrade "3.0.0") :=
  ⟨by decide, by decide, by decide,
   c2_amended c2wOp (fxUpgrade "3.0.0") (by decide) (by decide) (by decide)⟩

/-- Origin of every upgrade the detector of available upgrades emits: both
sides of its comparison were valid and the comparison succeeded. -/
theorem detectAvailableUpgrades_mem (installation : OperatorInstallation)
    (lookup : String → String → OperatorLifecycleInfo) (now : Nat) :
    ∀ (chs : List OperatorChannel) (l : List AvailableUpgrade),
      detectAvailableUpgrades installation lookup now chs = .ok l →
      ∀ u ∈ l, ∃ channel ∈ chs,
        svValid (cleanVersion installation.currentVersion) = true ∧
        svValid (cleanVersion channel.currentCSV) = true ∧
        u.targetVersion = channel.currentCSV ∧
        u.currentVersion = installation.currentVersion := by
  intro chs
  induction chs with
  | nil =>
    intro l h u hu
    unfold detectAvailableUpgrades at h
    cases h
    simp at hu
  | cons channel rest ih =>
    intro l h u hu
    unfold detectAvailableUpgrades at h
    dsimp only at h
    cases hhe : (if svValid (cleanVersion installation.currentVersion) = true ∧
          svValid (cleanVersion channel.currentCSV) = true then
        svGtE (cleanVersion channel.currentCSV) (cleanVersion installation.currentVersion) >>=
          fun g =>
          if g = true then
            pure [{ operatorName := installation.name
                    currentVersion := installation.currentVersion
                    targetVersion := channel.currentCSV
                    channel := channel.name
                    requiresIntermediateUpgrades := false
                    intermediateVersions := none
                    releaseDate := now
                    lifecycleInfo := lookup installation.name (cleanVersion channel.currentCSV) }]
          else pure []
      else pure ([] : List AvailableUpgrade) : Except String (List AvailableUpgrade)) with
    | error e => rw [hhe, exceptErrBind] at h; cases h
    | ok here =>
      rw [hhe, exceptOkBind] at h
      cases ht : detectAvailableUpgrades installation lookup now rest with
      | error e => rw [ht, exceptErrBind] at h; cases h
      | ok tl =>
        rw [ht, exceptOkBind] at h
        cases h
        rcases List.mem_append.mp hu with h1 | h2
        · by_cases hvv : svValid (cleanVersion installation.currentVersion) = true ∧
              svValid (cleanVersion channel.currentCSV) = true
          · rw [if_pos hvv] at hhe
            cases hg : svGtE (cleanVersion channel.currentCSV)
                (cleanVersion installation.currentVersion) with
            | error e => rw [hg, exceptErrBind] at hhe; cases hhe
            | ok g =>
              rw [hg, exceptOkBind] at hhe
              split at hhe
              · cases hhe
                rcases List.mem_singleton.mp h1 with rfl
                exact ⟨channel, List.mem_cons_self _ _, hvv.1, hvv.2, rfl, rfl⟩
              · cases hhe
                simp at h1
          · rw [if_neg hvv] at hhe
            cases hhe
            simp at h1
        · rcases ih _ ht u h2 with ⟨channel', hc', w⟩
          exact ⟨channel', List.mem_cons_of_mem _ hc', w⟩

/-- C5 counterexample: the conservative strategy recommends an upgrade for
an operator whose current version does not normalize — the incomparable pair
does not make it skip; it falls back to the first listed candidate. -/
theorem c5_counterexample :
    svParse (cleanVersion "unknown-version") = none ∧
    (generateConservativePath c5cexPS 0).map (Option.map
        (fun p => p.steps.map (fun s => (s.type, s.fromVersion, s.toVersion)))) =
      .ok (some [(StepType.verification, none, none),
        (StepType.operator, some "unknown-version", some "5.5.5")]) :=
  ⟨by decide, by decide⟩

/-- C5 amended: upgrade detection only recommends with both cleaned versions
valid, and the version-ceiling check only fires with a present maxOCPVersion
bound and a next update that are both valid — but the conservative selector,
rather than skipping, returns the first listed candidate outright when the
current version of the component does not parse. -/
theorem c5_amended :
    (∀ installation lookup now chs l,
      detectAvailableUpgrades installation lookup now chs = .ok l → ∀ u ∈ l,
        svValid (cleanVersion installation.currentVersion) = true ∧
        svValid (cleanVersion u.targetVersion) = true) ∧
    (∀ installation li upd now l,
      versionCeilingIssues installation li upd now = .ok l → ∀ i ∈ l,
        ∃ maxV nextUpdate, li.maxOCPVersion = some maxV ∧ upd.head? = some nextUpdate ∧
          svValid (extractVersionFromUpdate nextUpdate) = true ∧ svValid maxV = true) ∧
    (∀ (op : OperatorStatus) (u0 : AvailableUpgrade), op.availableUpgrades.head? = some u0 →
      svParse (cleanVersion op.installation.currentVersion) = none →
      findConservativeUpgrade op = .ok (some u0)) := by
  refine ⟨?_, ?_, ?_⟩
  · intro installation lookup now chs l h u hu
    rcases detectAvailableUpgrades_mem installation lookup now chs l h u hu with
      ⟨channel, _, hv1, hv2, htv, _⟩
    rw [htv]
    exact ⟨hv1, hv2⟩
  · intro installation li upd now l h i hi
    rcases versionCeilingIssues_mem installation li upd now l h i hi with
      ⟨maxV, nextUpdate, hmx, _, hup, hv1, hv2, _, _⟩
    exact ⟨maxV, nextUpdate, hmx, hup, hv1, hv2⟩
  · intro op u0 hh hp
    unfold findConservativeUpgrade
    cases hav : op.availableUpgrades with
    | nil => rw [hav] at hh; cases hh
    | cons x rest =>
      rw [hav] at hh
      simp only [List.head?, Option.some.injEq] at hh
      subst hh
      simp only [hp]

/-- C5 witness: a recommended upgrade with both sides valid, a ceiling issue
with both sides valid, and the conservative fallback returning the first
candidate for an unparsable current version. -/
theorem c5_witness :
    (svValid (cleanVersion c5wInstallation.currentVersion) = true ∧
      svValid (cleanVersion c5wU.targetVersion) = true) ∧
    (∃ maxV nextUpdate, fxLifecycleCeiling.maxOCPVersion = some maxV ∧
      ([ClusterUpdate.str "4.17.0"] : List ClusterUpdate).head? = some nextUpdate ∧
      svValid (extractVersionFromUpdate nextUpdate) = true ∧ svValid maxV = true) ∧
    findConservativeUpgrade c5wOp = .ok (some (fxUpgrade "5.5.5")) :=
  ⟨c5_amended.1 c5wInstallation (fun _ _ => fxLifecycle) 0 [fxChannel] c5wUpgList
      (by decide) c5wU (by decide),
   c5_amended.2.1 c5wInstallation fxLifecycleCeiling [ClusterUpdate.str "4.17.0"] 0 c5wIssueList
      (by decide) c5wI (by decide),
   c5_amended.2.2 c5wOp (fxUpgrade "5.5.5") (by decide) (by decide)⟩

/-- C6 counterexample: with supportExpiresIn defined and equal to 0 — below
90 — and an aggressive path present, the scheduler emits no window at all:
the truthiness guard treats 0 as absent. -/
theorem c6_counterexample :
    c6cexPS.supportExpiresIn = some 0 ∧ c6AggPath.id = "aggressive-path" ∧
    generateMaintenanceWindows c6cexPS [c6AggPath] 0 = [] :=
  ⟨rfl, rfl, by decide⟩

/-- C6 amended: for every defined nonzero supportExpiresIn below 90, with an
aggressive path present, the scheduler emits the high-priority lifecycle
window dated 14 days out whose reason carries the exact day count. -/
theorem c6_amended (ps : PlatformStatus) (paths : List UpgradePath) (now : Nat) (n : Int)
    (h1 : ps.supportExpiresIn = some n) (h2 : n ≠ 0) (h3 : n < 90)
    (ap : UpgradePath) (h4 : paths.find? (fun p => p.id == "aggressive-path") = some ap) :
    ∃ w ∈ generateMaintenanceWindows ps paths now,
      w.id = "lifecycle-maintenance" ∧ w.priority = WindowPriority.high ∧
      w.recommendedDate = now + 14 * 24 * 60 * 60 * 1000 ∧
      w.reason = "Platform support expires in " ++ toString n ++ " days" ∧
      w.upgradePath = ap := by
  unfold generateMaintenanceWindows
  dsimp only
  simp only [h1]
  rw [if_pos (show n ≠ 0 ∧ n < 90 from ⟨h2, h3⟩)]
  simp only [h4]
  refine ⟨_, List.mem_append_right _ (List.mem_singleton_self _), ?_⟩
  exact ⟨rfl, rfl, rfl, rfl, rfl⟩

/-- C6 witness: 45 remaining days produce the lifecycle window. -/
theorem c6_witness :
    ∃ w ∈ generateMaintenanceWindows c6wPS [c6AggPath] 0,
      w.id = "lifecycle-maintenance" ∧ w.priority = WindowPriority.high ∧
      w.recommendedDate = 0 + 14 * 24 * 60 * 60 * 1000 ∧
      w.reason = "Platform support expires in " ++ toString (45 : Int) ++ " days" ∧
      w.upgradePath = c6AggPath :=
  c6_amended c6wPS [c6AggPath] 0 45 (by decide) (by decide) (by decide) c6AggPath (by decide)


/-- Projecting to id and steps erases the retiming of a path list. -/
theorem map_proj_retime (t : Nat) (l : List UpgradePath) :
    List.map (fun p : UpgradePath => (p.id, p.steps)) (List.map (retimePath t) l) =
    List.map (fun p : UpgradePath => (p.id, p.steps)) l := by
  induction l with
  | nil => rfl
  | cons x xs ih =>
    rw [List.map_cons, List.map_cons, List.map_cons, ih]
    rfl

/-- Projecting to the id erases the retiming of an issue list. -/
theorem map_id_retime (t : Nat) (l : List UpgradeIssue) :
    List.map (fun i : UpgradeIssue => i.id) (List.map (retimeIssue t) l) =
    List.map (fun i : UpgradeIssue => i.id) l := by
  induction l with
  | nil => rfl
  | cons x xs ih =>
    rw [List.map_cons, List.map_cons, List.map_cons, ih]
    rfl

/-- C7 counterexample: two detection runs differing only in support phase
produce issues with the same component name and the same issue kind
(lifecycle-expiring) but different ids — the id is not derived from the
component name and issue kind alone. -/
theorem c7_counterexample :
    detectUpgradeIssues (fxInstallation "x" "1.0.0") fxLifecycleMaintenance fxChannel [] 0 =
      .ok [maintenanceIssue (fxInstallation "x" "1.0.0") 0] ∧
    detectUpgradeIssues (fxInstallation "x" "1.0.0") fxLifecycleEol fxChannel [] 0 =
      .ok [eolIssue (fxInstallation "x" "1.0.0") 0] ∧
    (maintenanceIssue (fxInstallation "x" "1.0.0") 0).operatorName =
      (eolIssue (fxInstallation "x" "1.0.0") 0).operatorName ∧
    (maintenanceIssue (fxInstallation "x" "1.0.0") 0).type =
      (eolIssue (fxInstallation "x" "1.0.0") 0).type ∧
    (maintenanceIssue (fxInstallation "x" "1.0.0") 0).id ≠
      (eolIssue (fxInstallation "x" "1.0.0") 0).id := by decide

/-- C7 amended: path generation and issue detection are deterministic over
the snapshot — the generation instant moves only the date stamps, never the
path ids, step sequences or issue ids — and every issue id is the component
name plus a fixed suffix determined by the detecting rule: the issue kind
for stale-channel and version-ceiling, and the support phase (maintenance
versus end-of-life) within the lifecycle-expiring kind. -/
theorem c7_amended :
    (∀ ps t1 t2,
      Except.map (List.map (fun p : UpgradePath => (p.id, p.steps)))
        (generateUpgradePaths ps t1) =
      Except.map (List.map (fun p : UpgradePath => (p.id, p.steps)))
        (generateUpgradePaths ps t2)) ∧
    (∀ installation li ch upd t1 t2,
      Except.map (List.map (fun i : UpgradeIssue => i.id))
        (detectUpgradeIssues installation li ch upd t1) =
      Except.map (List.map (fun i : UpgradeIssue => i.id))
        (detectUpgradeIssues installation li ch upd t2)) ∧
    (∀ installation li ch upd t l, detectUpgradeIssues installation li ch upd t = .ok l →
      ∀ i ∈ l, i.operatorName = installation.name ∧
        ((i.type = IssueType.staleChannel ∧ i.id = installation.name ++ "-stale-channel") ∨
         (i.type = IssueType.lifecycleExpiring ∧ i.id = installation.name ++ "-maintenance" ∧
           li.supportPhase = SupportPhase.maintenanceSupport) ∨
         (i.type = IssueType.lifecycleExpiring ∧ i.id = installation.name ++ "-eol" ∧
           li.supportPhase = SupportPhase.endOfLife) ∨
         (i.type = IssueType.versionCeiling ∧
           i.id = installation.name ++ "-version-ceiling"))) := by
  refine ⟨?_, ?_, ?_⟩
  · intro ps t1 t2
    rw [generateUpgradePaths_retime ps t1, generateUpgradePaths_retime ps t2]
    cases generateUpgradePaths ps 0 with
    | error e => simp only [exceptMapErr]
    | ok l =>
      simp only [exceptMapOk]
      rw [map_proj_retime t1 l, map_proj_retime t2 l]
  · intro installation li ch upd t1 t2
    rw [detectUpgradeIssues_retime installation li ch upd t1,
      detectUpgradeIssues_retime installation li ch upd t2]
    cases detectUpgradeIssues installation li ch upd 0 with
    | error e => simp only [exceptMapErr]
    | ok l =>
      simp only [exceptMapOk]
      rw [map_id_retime t1 l, map_id_retime t2 l]
  · intro installation li ch upd t l h i hi
    rcases detectUpgradeIssues_mem installation li ch upd t l h i hi with
      ⟨hd, rfl⟩ | ⟨hm, rfl⟩ | ⟨he, rfl⟩ | ⟨l4, h4, hi4⟩
    · exact ⟨rfl, Or.inl ⟨rfl, rfl⟩⟩
    · exact ⟨rfl, Or.inr (Or.inl ⟨rfl, rfl, hm⟩)⟩
    · exact ⟨rfl, Or.inr (Or.inr (Or.inl ⟨rfl, rfl, he⟩))⟩
    · rcases versionCeilingIssues_mem installation li upd t l4 h4 i hi4 with
        ⟨maxV, nu, _, _, _, _, _, _, rfl⟩
      exact ⟨rfl, Or.inr (Or.inr (Or.inr ⟨rfl, rfl⟩))⟩

/-- C7 witness: the stale-channel issue of a concrete run carries the
component name and the id shape the amended claim states. -/
theorem c7_witness :
    c7wI.operatorName = (fxInstallation "x" "1.0.0").name ∧
    ((c7wI.type = IssueType.staleChannel ∧
        c7wI.id = (fxInstallation "x" "1.0.0").name ++ "-stale-channel") ∨
     (c7wI.type = IssueType.lifecycleExpiring ∧
        c7wI.id = (fxInstallation "x" "1.0.0").name ++ "-maintenance" ∧
        fxLifecycle.supportPhase = SupportPhase.maintenanceSupport) ∨
     (c7wI.type = IssueType.lifecycleExpiring ∧
        c7wI.id = (fxInstallation "x" "1.0.0").name ++ "-eol" ∧
        fxLifecycle.supportPhase = SupportPhase.endOfLife) ∨
     (c7wI.type = IssueType.versionCeiling ∧
        c7wI.id = (fxInstallation "x" "1.0.0").name ++ "-version-ceiling")) :=
  c7_amended.2.2 (fxInstallation "x" "1.0.0") fxLifecycle fxChannelDeprecated [] 0
    c7wIssueList (by decide) c7wI (by decide)

/-- C8 witness: the operator step of the conservative path on the witness
snapshot names an operator that has candidates, and a deprecated channel
yields a stale-channel warning in a concrete detection run. -/
theorem c8_witness :
    (∃ op ∈ c4wPS.operators, (operatorStepOf c4wPCons).target = op.installation.name ∧
      op.availableUpgrades ≠ []) ∧
    (∃ i ∈ c7wIssueList, i.type = IssueType.staleChannel ∧
      i.severity = IssueSeverity.warning) :=
  ⟨c8_theorem.1 c4wPS 0 c8wPaths (by decide) c4wPCons (by decide) (operatorStepOf c4wPCons)
      (by decide) (by decide),
   c8_theorem.2 (fxInstallation "x" "1.0.0") fxLifecycle fxChannelDeprecated [] 0 c7wIssueList
      (by decide) (by decide)⟩

/-! ## Evaluated examples of the comparator -/

example : cleanVersion "openshift-gitops-operator.v1.10.0" = "1.10.0" := by decide
example : cleanVersion "v4.16.1" = "4.16.1" := by decide
example : cleanVersion "unknown" = "unknown" := by decide
example : svParse "1.2.3" = some ⟨1, 2, 3, []⟩ := by decide
example : svParse "v1.2.3" = some ⟨1, 2, 3, []⟩ := by decide
example : svParse "1.2.03" = none := by decide
example : svParse "unknown" = none := by decide
example : svGtE "1.2.3" "1.2.4" = .ok false := by decide
example : svGtE "bad" "1.2.4" = .error "Invalid Version: bad" := by decide
example : svDiffE "1.0.0" "2.0.0" = .ok (some .major) := by decide
example : svDiffE "1.0.0" "1.1.0" = .ok (some .minor) := by decide
example : svDiffE "1.0.0" "1.0.5" = .ok (some .patch) := by decide
example : svDiffE "1.0.0" "1.0.0" = .ok none := by decide
example : svParse "1.2.3-alpha.1" = some ⟨1, 2, 3, [.str "alpha", .num 1]⟩ := by decide
